import Mathlib

/-
  Verification development for the auto-irrigation-system repository.

  Shallow embedding of:
  - internal/mqtt/client.go   (device status store, message dispatch, publish)
  - internal/scheduler/scheduler.go (calibration, task execution, job entry points)
  - the slack notification client (rate-limit backoff)

  Machine integers of the Go code are modelled as Int/Nat (no overflow is
  exercised by any claim); Go float64 status fields are modelled as Rat,
  which is faithful for every decimal literal the claims touch.  Stateful
  Go code (the sync.Map status store, the scheduler's effects) is modelled
  by explicit state passing and by event traces.
-/

namespace Irrigation

/-! ## String helpers mirroring the Go standard library calls used by the code -/

/-- Whether the first list is an initial run of the second (character-wise). -/
def leadMatch : List Char → List Char → Bool
  | [], _ => true
  | _ :: _, [] => false
  | a :: as, b :: bs => a = b && leadMatch as bs

/-- Model of strings.HasSuffix: the topic ends with the given literal. -/
def endsWithStr (s suffix : String) : Bool :=
  leadMatch suffix.data.reverse s.data.reverse

/-- Whether the pattern occurs as a contiguous run inside the list. -/
def containsChars (pat : List Char) : List Char → Bool
  | [] => pat.isEmpty
  | x :: xs => leadMatch pat (x :: xs) || containsChars pat xs

/-- Model of strings.Contains. -/
def containsStr (s pat : String) : Bool :=
  containsChars pat.data s.data

/-- Model of strings.ToLower (ASCII letters, which is all the code compares). -/
def lowerStr (s : String) : String :=
  String.mk (s.data.map Char.toLower)

/-- Splitting accumulator for splitParts. -/
def splitOnCharAux (c : Char) : List Char → List Char → List (List Char)
  | [], acc => [acc.reverse]
  | x :: xs, acc =>
    if x = c then acc.reverse :: splitOnCharAux c xs []
    else splitOnCharAux c xs (x :: acc)

/-- Model of strings.Split(s, "/...") for a one-character separator. -/
def splitParts (c : Char) (s : String) : List (List Char) :=
  splitOnCharAux c s.data []

/-! ## Models of the strconv parsers used by messageHandler.

Each parser returns (value, ok) exactly as the Go multiple assignment
`field, err = strconv.Parse...(s)` delivers it: on failure ok = false and
the value is the parser's documented failure-time return — false for
ParseBool; for Atoi 0 on a syntax error and the clamped 64-bit extreme
on a range error; for ParseFloat 0 on a syntax or underflow error and
the signed infinity on overflow.  Finite parsed floats are kept as the
exact rational value of the literal (rounding to the nearest IEEE
double is not modelled — no claim reads an in-range parsed value); the
sign of a floating-point zero is not distinguished and NaN is a single
value. -/

/-- Model of strconv.ParseBool: the exact accepted token set of the Go spec. -/
def goParseBool (s : String) : Bool × Bool :=
  if s = "1" ∨ s = "t" ∨ s = "T" ∨ s = "TRUE" ∨ s = "true" ∨ s = "True" then
    (true, true)
  else if s = "0" ∨ s = "f" ∨ s = "F" ∨ s = "FALSE" ∨ s = "false" ∨ s = "False" then
    (false, true)
  else
    (false, false)

/-- Value of a nonempty all-digit character run, if it is one. -/
def digitsVal : List Char → Option Nat
  | [] => none
  | [c] => if c.isDigit then some (c.toNat - '0'.toNat) else none
  | c :: cs =>
    if c.isDigit then
      match digitsVal cs with
      | some n => some ((c.toNat - '0'.toNat) * 10 ^ cs.length + n)
      | none => none
    else none

/-- Largest signed 64-bit integer, the value strconv.Atoi leaves on a
positive range error (Go int is 64-bit on the deployment platform). -/
def int64Max : Int := 2 ^ 63 - 1

/-- Smallest signed 64-bit integer, the value strconv.Atoi leaves on a
negative range error. -/
def int64Min : Int := -(2 ^ 63)

/-- Model of strconv.Atoi = ParseInt(s, 10, 0): optional sign then
decimal digits (no underscores in base 10); a value outside the 64-bit
range is a range error returning the clamped extreme; anything else
malformed is a syntax error returning 0. -/
def goAtoi (s : String) : Int × Bool :=
  match s.data with
  | '-' :: rest =>
    match digitsVal rest with
    | some n => if (2 : Nat) ^ 63 < n then (int64Min, false) else (-(n : Int), true)
    | none => (0, false)
  | '+' :: rest =>
    match digitsVal rest with
    | some n => if (2 : Nat) ^ 63 ≤ n then (int64Max, false) else ((n : Int), true)
    | none => (0, false)
  | l =>
    match digitsVal l with
    | some n => if (2 : Nat) ^ 63 ≤ n then (int64Max, false) else ((n : Int), true)
    | none => (0, false)

/-- Go float64 values as the model stores them: finite values as exact
rationals, the infinities and NaN explicit; -0 is identified with 0. -/
inductive GoFloat where
  | finite (q : Rat)
  | posInf
  | negInf
  | nan
deriving DecidableEq

instance : OfNat GoFloat 0 :=
  ⟨GoFloat.finite 0⟩

/-- Whether the character is a hexadecimal digit. -/
def isHexDigit (c : Char) : Bool :=
  c.isDigit || ('a' ≤ c && c ≤ 'f') || ('A' ≤ c && c ≤ 'F')

/-- Numeric value of a decimal digit character. -/
def digitVal (c : Char) : Nat :=
  c.toNat - '0'.toNat

/-- Numeric value of a hexadecimal digit character. -/
def hexDigitVal (c : Char) : Nat :=
  if c.isDigit then digitVal c else c.toLower.toNat - 'a'.toNat + 10

/-- Value of a decimal digit run. -/
def natOfDec (l : List Char) : Nat :=
  l.foldl (fun acc c => acc * 10 + digitVal c) 0

/-- Value of a hexadecimal digit run. -/
def natOfHex (l : List Char) : Nat :=
  l.foldl (fun acc c => acc * 16 + hexDigitVal c) 0

/-- Case-insensitive equality with a literal, for the special float
values, mirroring strconv's commonPrefixLenIgnoreCase exact-match use. -/
def lowerEq (l pat : List Char) : Bool :=
  l.map Char.toLower == pat

/-- The loop of strconv's underscoreOK: a digit (or, in hex mode, a hex
letter) is fine; an underscore must follow and be followed by a digit;
saw tracks the class of the previous character as in the Go source. -/
def underscoreOKLoop (hex : Bool) : List Char → Char → Bool
  | [], saw => saw ≠ '_'
  | c :: cs, saw =>
    if c.isDigit || (hex && ('a' ≤ c.toLower && c.toLower ≤ 'f')) then
      underscoreOKLoop hex cs '0'
    else if c = '_' then
      if saw ≠ '0' then false else underscoreOKLoop hex cs '_'
    else if saw = '_' then false
    else underscoreOKLoop hex cs '!'

/-- Model of strconv.underscoreOK: underscores may only separate digits
(the 0b/0o/0x base prefix counting as a digit). -/
def underscoreOK (s : String) : Bool :=
  let l := match s.data with
    | '-' :: rest => rest
    | '+' :: rest => rest
    | l => l
  match l with
  | c0 :: c1 :: rest =>
    if c0 = '0' && (c1.toLower = 'b' || c1.toLower = 'o' || c1.toLower = 'x') then
      underscoreOKLoop (c1.toLower = 'x') rest '0'
    else underscoreOKLoop false l '^'
  | _ => underscoreOKLoop false l '^'

/-- Model of strconv's special(): a possibly signed Inf/Infinity, or an
unsigned NaN, each matched case-insensitively against the whole string
(a sign before NaN is not special, as in the Go source). -/
def parseSpecial (l : List Char) : Option GoFloat :=
  match l with
  | '+' :: rest =>
    if lowerEq rest "inf".data || lowerEq rest "infinity".data then some GoFloat.posInf
    else none
  | '-' :: rest =>
    if lowerEq rest "inf".data || lowerEq rest "infinity".data then some GoFloat.negInf
    else none
  | _ =>
    if lowerEq l "inf".data || lowerEq l "infinity".data then some GoFloat.posInf
    else if lowerEq l "nan".data then some GoFloat.nan
    else none

/-- Exponent tail of a float literal: e/E (or p/P) already consumed, an
optional sign then at least one decimal digit ending the string; the
mantissa is scaled by base^exponent. -/
def parseExpTail (mant : Rat) (base : Nat) (r : List Char) : Option Rat :=
  let sr := match r with
    | '+' :: t => ((1 : Int), t)
    | '-' :: t => ((-1 : Int), t)
    | _ => ((1 : Int), r)
  let dp := sr.2.span (fun c => c.isDigit)
  if dp.1.isEmpty then none
  else if !dp.2.isEmpty then none
  else if sr.1 = 1 then some (mant * ((base ^ natOfDec dp.1 : Nat) : Rat))
  else some (mant / ((base ^ natOfDec dp.1 : Nat) : Rat))

/-- Decimal float body: digits with an optional fractional part (at
least one digit overall) and an optional e/E exponent. -/
def parseDecCore (l : List Char) : Option Rat :=
  let ip := l.span (fun c => c.isDigit)
  let fp : List Char × List Char := match ip.2 with
    | '.' :: r => r.span (fun c => c.isDigit)
    | _ => ([], ip.2)
  if ip.1.isEmpty && fp.1.isEmpty then none
  else
    let mant : Rat := (natOfDec (ip.1 ++ fp.1) : Rat) / ((10 ^ fp.1.length : Nat) : Rat)
    match fp.2 with
    | [] => some mant
    | 'e' :: r => parseExpTail mant 10 r
    | 'E' :: r => parseExpTail mant 10 r
    | _ => none

/-- Hexadecimal float body (after the 0x prefix): hex digits with an
optional fractional part and the mandatory p/P binary exponent. -/
def parseHexCore (l : List Char) : Option Rat :=
  let ip := l.span isHexDigit
  let fp : List Char × List Char := match ip.2 with
    | '.' :: r => r.span isHexDigit
    | _ => ([], ip.2)
  if ip.1.isEmpty && fp.1.isEmpty then none
  else
    let mant : Rat := (natOfHex (ip.1 ++ fp.1) : Rat) / ((16 ^ fp.1.length : Nat) : Rat)
    match fp.2 with
    | 'p' :: r => parseExpTail mant 2 r
    | 'P' :: r => parseExpTail mant 2 r
    | _ => none

/-- A whole underscore-free float literal: optional sign, then either a
0x/0X hexadecimal body or a decimal body, consuming the entire string. -/
def parsePlainFloat (l : List Char) : Option Rat :=
  let sl := match l with
    | '+' :: t => ((1 : Int), t)
    | '-' :: t => ((-1 : Int), t)
    | _ => ((1 : Int), l)
  let core := match sl.2 with
    | '0' :: 'x' :: t => parseHexCore t
    | '0' :: 'X' :: t => parseHexCore t
    | t => parseDecCore t
  core.map (fun q => (sl.1 : Rat) * q)

/-- Smallest magnitude that still rounds to infinity under IEEE754
round-to-nearest-even: (2 - 2^-53) * 2^1023. -/
def float64MaxBound : Rat :=
  ((2 ^ 1024 - 2 ^ 970 : Nat) : Rat)

/-- Largest magnitude that rounds to zero under IEEE754
round-to-nearest-even: half the smallest subnormal, 2^-1075. -/
def float64MinBound : Rat :=
  1 / ((2 ^ 1075 : Nat) : Rat)

/-- Model of strconv.ParseFloat(s, 64): special Inf/NaN forms, then the
decimal or hexadecimal grammar with underscores validated as in Go; a
malformed string is a syntax error returning 0; a finite value at or
beyond the rounding boundary to infinity is a range error returning the
signed infinity; a nonzero value that rounds to zero is a range error
returning 0. -/
def goParseFloat (s : String) : GoFloat × Bool :=
  match parseSpecial s.data with
  | some g => (g, true)
  | none =>
    if underscoreOK s then
      match parsePlainFloat (s.data.filter (fun c => c ≠ '_')) with
      | none => (GoFloat.finite 0, false)
      | some q =>
        if float64MaxBound ≤ q then (GoFloat.posInf, false)
        else if q ≤ -float64MaxBound then (GoFloat.negInf, false)
        else if q ≠ 0 ∧ |q| ≤ float64MinBound then (GoFloat.finite 0, false)
        else (GoFloat.finite q, true)
    else (GoFloat.finite 0, false)

/-! ## Data model: models.DeviceStatus and the sync.Map status store -/

/-- Mirror of models.DeviceStatus (internal/models/irrigation.go). -/
structure DeviceStatus where
  deviceID : String
  healthCheck : Bool
  sprinklerPosition : GoFloat
  valvePosition : GoFloat
  sprinklerCalibComplete : Bool
  valveCalibComplete : Bool
  valveIsAtTarget : Bool
  taskCurrentIndex : Int
  taskCurrentCount : Int
  taskAllComplete : Bool
  taskArray : String
deriving DecidableEq

/-- The Go literal &models.DeviceStatus{DeviceID: deviceID}: every other
field is the zero value of its type. -/
def emptyStatus (id : String) : DeviceStatus :=
  { deviceID := id
    healthCheck := false
    sprinklerPosition := 0
    valvePosition := 0
    sprinklerCalibComplete := false
    valveCalibComplete := false
    valveIsAtTarget := false
    taskCurrentIndex := 0
    taskCurrentCount := 0
    taskAllComplete := false
    taskArray := "" }

/-- The deviceStatuses sync.Map, modelled as an association list. -/
abbrev Store := List (String × DeviceStatus)

/-- sync.Map.Load. -/
def lookupStore : Store → String → Option DeviceStatus
  | [], _ => none
  | (k, v) :: rest, id => if k = id then some v else lookupStore rest id

/-- sync.Map.Store: replace an existing entry or append a new one. -/
def putStore : Store → String → DeviceStatus → Store
  | [], id, v => [(id, v)]
  | (k, w) :: rest, id, v =>
    if k = id then (id, v) :: rest else (k, w) :: putStore rest id v

/-- sync.Map.LoadOrStore with a fresh empty status as the stored value. -/
def loadOrStore (st : Store) (id : String) : DeviceStatus × Store :=
  match lookupStore st id with
  | some v => (v, st)
  | none => (emptyStatus id, putStore st id (emptyStatus id))

/-- Client.GetDeviceStatus: an unseen device yields a fresh empty status,
never an absent value (internal/mqtt/client.go). -/
def GetDeviceStatus (st : Store) (id : String) : DeviceStatus :=
  match lookupStore st id with
  | some v => v
  | none => emptyStatus id

/-- Client.ResetDeviceStatus: store a fresh empty status unconditionally. -/
def ResetDeviceStatus (st : Store) (id : String) : Store :=
  putStore st id (emptyStatus id)

/-! ## messageHandler (internal/mqtt/client.go)

The Go switch assigns `status.Field, err = parse(payload)` and only then
checks err; since the map holds a pointer, the field keeps the parser's
failure-time value even when err forces the early return.  dispatchField
therefore applies the update in every recognized branch and returns none
exactly for the unrecognized-suffix default branch. -/

/-- The suffix switch of messageHandler, branch for branch in source order. -/
def dispatchField (topic payload : String) (status : DeviceStatus) : Option DeviceStatus :=
  if endsWithStr topic "/status/health_check" then
    some { status with healthCheck := (goParseBool payload).1 }
  else if endsWithStr topic "/status/sprinkler/position" then
    some { status with sprinklerPosition := (goParseFloat payload).1 }
  else if endsWithStr topic "/status/valve/position" then
    some { status with valvePosition := (goParseFloat payload).1 }
  else if endsWithStr topic "/status/sprinkler/calib_complete" then
    some { status with sprinklerCalibComplete := (goParseBool payload).1 }
  else if endsWithStr topic "/status/valve/calib_complete" then
    some { status with valveCalibComplete := (goParseBool payload).1 }
  else if endsWithStr topic "/status/valve/target" then
    some { status with valveIsAtTarget := (goParseBool payload).1 }
  else if endsWithStr topic "/status/task/current_index" then
    some { status with taskCurrentIndex := (goAtoi payload).1 }
  else if endsWithStr topic "/status/task/current_count" then
    some { status with taskCurrentCount := (goAtoi payload).1 }
  else if endsWithStr topic "/status/task/all_complete" then
    some { status with taskAllComplete := (goParseBool payload).1 }
  else if endsWithStr topic "/status/task/array" then
    some { status with taskArray := payload }
  else
    none

/-- Whether the matched branch's parser succeeded; true for the task/array
branch (no parsing) and for an unrecognized suffix (no parser runs). -/
def parsedOk (topic payload : String) : Bool :=
  if endsWithStr topic "/status/health_check" then (goParseBool payload).2
  else if endsWithStr topic "/status/sprinkler/position" then (goParseFloat payload).2
  else if endsWithStr topic "/status/valve/position" then (goParseFloat payload).2
  else if endsWithStr topic "/status/sprinkler/calib_complete" then (goParseBool payload).2
  else if endsWithStr topic "/status/valve/calib_complete" then (goParseBool payload).2
  else if endsWithStr topic "/status/valve/target" then (goParseBool payload).2
  else if endsWithStr topic "/status/task/current_index" then (goAtoi payload).2
  else if endsWithStr topic "/status/task/current_count" then (goAtoi payload).2
  else if endsWithStr topic "/status/task/all_complete" then (goParseBool payload).2
  else true

/-- Client.messageHandler as a store transformer. -/
def messageHandler (st : Store) (topic payload : String) : Store :=
  let parts := splitParts '/' topic
  if parts.length < 3 then st
  else
    let deviceID := String.mk (parts.headD [])
    let res := loadOrStore st deviceID
    match dispatchField topic payload res.1 with
    | some status' => putStore res.2 deviceID status'
    | none => res.2

/-- The dispatcher applied to a stream of (topic, payload) messages. -/
def processMessages (st : Store) : List (String × String) → Store
  | [] => st
  | (t, p) :: rest => processMessages (messageHandler st t p) rest

/-! ## Client.Publish (internal/mqtt/client.go) -/

/-- The publish request handed to the paho transport. -/
structure PubRequest where
  topic : String
  qos : Nat
  retained : Bool
  payload : String
deriving DecidableEq

/-- Observable outcome of one Client.Publish call. -/
structure PublishOutcome where
  request : PubRequest
  loggedError : Option String
  returnedError : Option String
deriving DecidableEq

/-- Client.Publish: builds the request with QoS 1 and retained = false,
waits on the token, and logs any token error.  The Go method has no error
return value, so the caller-visible error is always none. -/
def Publish (transport : PubRequest → Option String) (topic payload : String) : PublishOutcome :=
  let req : PubRequest := { topic := topic, qos := 1, retained := false, payload := payload }
  let tokErr := transport req
  { request := req, loggedError := tokErr, returnedError := none }

/-! ## Slack notification client (slack package)

The Go client keeps a single field rateLimitBackoff (a duration); no
timestamp of when the window started is recorded.  The goroutine spawned
by handleRateLimit (sleep then clear) is modelled by the separate
transition backgroundResetBackoff; everything else is synchronous.
Durations and the simulated clock are in seconds (5 min = 300, 1 min = 60). -/

/-- The mutable state of slack.Client. -/
structure SlackState where
  rateLimitBackoff : Int
deriving DecidableEq

/-- Client.isRateLimitError: case-insensitive substring match against the
fixed token set. -/
def isRateLimitError (err : String) : Bool :=
  let e := lowerStr err
  containsStr e "rate_limited" || containsStr e "message_limit_exceeded" ||
    containsStr e "too_many_requests"

/-- Client.handleRateLimit: 1 minute by default, 5 minutes for the
message_limit_exceeded token.  The goroutine it spawns is modelled by
backgroundResetBackoff. -/
def handleRateLimit (err : String) (_st : SlackState) : SlackState :=
  let e := lowerStr err
  let backoffDuration : Int := if containsStr e "message_limit_exceeded" then 300 else 60
  { rateLimitBackoff := backoffDuration }

/-- Body of the goroutine spawned by handleRateLimit: after sleeping for
the backoff duration it clears the field. -/
def backgroundResetBackoff (_st : SlackState) : SlackState :=
  { rateLimitBackoff := 0 }

/-- Client.IsRateLimited. -/
def IsRateLimited (st : SlackState) : Bool :=
  st.rateLimitBackoff > 0

/-- The PostMessage call followed by the error handling of
SendRichMessage; postErr is the error the transport reports.  The Bool
records whether PostMessage was called. -/
def postAndHandle (postErr : Option String) (st : SlackState) : SlackState × Bool :=
  match postErr with
  | some e => if isRateLimitError e then (handleRateLimit e st, true) else (st, true)
  | none => (st, true)

/-- Client.SendRichMessage at the given clock instant.  The in-line check
compares time.Now() against time.Now().Add(-backoff), i.e. clock against
clock - backoff, before either skipping or clearing the backoff. -/
def SendRichMessage (clock : Int) (postErr : Option String) (st : SlackState) : SlackState × Bool :=
  if st.rateLimitBackoff > 0 then
    if clock < clock - st.rateLimitBackoff then (st, false)
    else postAndHandle postErr { rateLimitBackoff := 0 }
  else postAndHandle postErr st

/-- Client.SendRichMessageSafe: drop (reporting false) while
IsRateLimited, otherwise delegate to SendRichMessage and report true. -/
def SendRichMessageSafe (clock : Int) (postErr : Option String) (st : SlackState) : Bool × SlackState :=
  if IsRateLimited st then (false, st)
  else
    let r := SendRichMessage clock postErr st
    (true, r.1)

/-! ## Scheduler (internal/scheduler/scheduler.go)

The scheduler's effects are modelled as an event trace.  GetDeviceStatus
reads made during a run consume successive snapshots from a stream that
abstracts the concurrently updated status store; an exhausted stream
yields the fresh empty status GetDeviceStatus returns for an unseen
device.  Each poll tick of waitForFlag is one such read; the tick budget
of a wait is its wall-clock timeout divided by the 2-second ticker. -/

/-- Notification severity of the slack helpers used by the scheduler. -/
inductive Sev where
  | info
  | success
  | error
deriving DecidableEq

/-- One observable effect of a scheduler run. -/
inductive Event where
  | reset (deviceID : String)
  | publish (topic payload : String)
  | sleepSec (n : Nat)
  | poll (deviceID : String)
  | getStatus (deviceID : String)
  | notify (sev : Sev)
deriving DecidableEq

/-- Mirror of config.DeviceConfig (the variant the scheduler uses). -/
structure DeviceConfig where
  id : String
  type' : String
  scheduleTimes : List String
  scheduleDuration : Int
  taskIDs : List String
deriving DecidableEq

/-- Mirror of scheduler.TaskDefinition; the payload is kept as the raw
JSON string it is forwarded as. -/
structure TaskDefinition where
  payload : String
  timeoutMinutes : Int
deriving DecidableEq

/-- Mirror of config.Config restricted to what the scheduler reads. -/
structure Config where
  devices : List DeviceConfig
deriving DecidableEq

/-- The task files on disk: path to parsed TaskDefinition; an absent entry
is a read or parse failure (both produce TASK_ERROR in the source). -/
abbrev TaskFiles := List (String × TaskDefinition)

/-- Association-list lookup for TaskFiles. -/
def lookupFile : TaskFiles → String → Option TaskDefinition
  | [], _ => none
  | (k, v) :: rest, p => if k = p then some v else lookupFile rest p

/-- fmt.Sprintf tasks/%s_%s.json. -/
def taskFilePath (devID taskID : String) : String :=
  "tasks/" ++ devID ++ "_" ++ taskID ++ ".json"

/-- One GetDeviceStatus read against the observation stream. -/
def takeStatus (dev : String) : List DeviceStatus → DeviceStatus × List DeviceStatus
  | [] => (emptyStatus dev, [])
  | s :: rest => (s, rest)

/-- Scheduler.waitForFlag: poll on a 2-second ticker until the predicate
holds or the tick budget (timeout / 2 s) is exhausted.  Returns success,
the poll events emitted, and the remaining stream. -/
def waitForFlag (dev : String) (ticks : Nat) (check : DeviceStatus → Bool) :
    List DeviceStatus → Bool × List Event × List DeviceStatus
  | stream =>
    match ticks with
    | 0 => (false, [], stream)
    | n + 1 =>
      let r := takeStatus dev stream
      if check r.1 then (true, [Event.poll dev], r.2)
      else
        let w := waitForFlag dev n check r.2
        (w.1, Event.poll dev :: w.2.1, w.2.2)

/-- Tick budget of a 2*time.Minute wait on the 2-second ticker. -/
def calibTicks : Nat := 60

/-- Tick budget of a timeoutMinutes wait on the 2-second ticker; a
non-positive timeout means the context is already expired. -/
def ticksOfMinutes (m : Int) : Nat :=
  (m * 30).toNat

/-- Result of one scheduler phase for one device. -/
structure PhaseResult where
  events : List Event
  ok : Bool
  historyStatus : Option String
  stream : List DeviceStatus
deriving DecidableEq

/-- Second half of Scheduler.runCalibration: re-fetch the status and
calibrate the water valve unless it already reports calibrated. -/
def runCalibrationValve (dev : DeviceConfig) (evs : List Event)
    (stream : List DeviceStatus) : PhaseResult :=
  let r := takeStatus dev.id stream
  let evs := evs ++ [Event.getStatus dev.id]
  if r.1.valveCalibComplete then
    { events := evs, ok := true, historyStatus := none, stream := r.2 }
  else
    let pubEv := Event.publish (dev.id ++ "/cmd/valve/home") "1"
    let w := waitForFlag dev.id calibTicks (fun st => st.valveCalibComplete) r.2
    if w.1 then
      { events := evs ++ pubEv :: w.2.1, ok := true, historyStatus := none, stream := w.2.2 }
    else
      { events := evs ++ pubEv :: w.2.1, ok := false,
        historyStatus := some "VALVE_CALIB_TIMEOUT", stream := w.2.2 }

/-- Scheduler.runCalibration: sprinkler axis then valve axis, each skipped
when the freshly read status already reports it calibrated; a wait that
exhausts its deadline records the axis's calibration-timeout status and
aborts (the valve axis is never reached after a sprinkler timeout). -/
def runCalibration (dev : DeviceConfig) (stream : List DeviceStatus) : PhaseResult :=
  let r := takeStatus dev.id stream
  let evs := [Event.getStatus dev.id]
  if r.1.sprinklerCalibComplete then
    runCalibrationValve dev evs r.2
  else
    let pubEv := Event.publish (dev.id ++ "/cmd/sprinkler/home") "1"
    let w := waitForFlag dev.id calibTicks (fun st => st.sprinklerCalibComplete) r.2
    if w.1 then
      runCalibrationValve dev (evs ++ pubEv :: w.2.1) w.2.2
    else
      { events := evs ++ pubEv :: w.2.1, ok := false,
        historyStatus := some "SPRINKLER_CALIB_TIMEOUT", stream := w.2.2 }

/-- Result of Scheduler.runDeviceTasks; tasksBegun lists the task IDs
whose loop iteration started (i.e. whose reset was issued). -/
structure TasksResult where
  events : List Event
  ok : Bool
  historyStatus : Option String
  stream : List DeviceStatus
  tasksBegun : List String
deriving DecidableEq

/-- The task loop of Scheduler.runDeviceTasks over the remaining task IDs:
reset the status, load the definition (absent file or bad JSON records
TASK_ERROR and aborts), publish the payload to the task-set topic, sleep
3 seconds, then wait for the all-complete flag within the task's own
timeout (deadline records TASK_TIMEOUT and aborts). -/
def runTasksAux (dev : DeviceConfig) (files : TaskFiles) :
    List String → List DeviceStatus → TasksResult
  | [], stream =>
    { events := [], ok := true, historyStatus := none, stream := stream, tasksBegun := [] }
  | taskID :: rest, stream =>
    let resetEv := Event.reset dev.id
    match lookupFile files (taskFilePath dev.id taskID) with
    | none =>
      { events := [resetEv], ok := false, historyStatus := some "TASK_ERROR",
        stream := stream, tasksBegun := [taskID] }
    | some td =>
      let pubEv := Event.publish (dev.id ++ "/cmd/task/set") td.payload
      let w := waitForFlag dev.id (ticksOfMinutes td.timeoutMinutes)
        (fun st => st.taskAllComplete) stream
      if w.1 then
        let r := runTasksAux dev files rest w.2.2
        { events := resetEv :: pubEv :: Event.sleepSec 3 :: (w.2.1 ++ r.events),
          ok := r.ok, historyStatus := r.historyStatus, stream := r.stream,
          tasksBegun := taskID :: r.tasksBegun }
      else
        { events := resetEv :: pubEv :: Event.sleepSec 3 :: w.2.1, ok := false,
          historyStatus := some "TASK_TIMEOUT", stream := w.2.2,
          tasksBegun := [taskID] }

/-- Scheduler.runDeviceTasks: the loop over the device's configured task IDs. -/
def runDeviceTasks (dev : DeviceConfig) (files : TaskFiles)
    (stream : List DeviceStatus) : TasksResult :=
  runTasksAux dev files dev.taskIDs stream

/-- Scheduler.processPlantPotDevice: one health-check read gates the
single trigger publish; no polling wait for this device type. -/
def processPlantPotDevice (dev : DeviceConfig) (stream : List DeviceStatus) : PhaseResult :=
  let evs := [Event.notify Sev.info]
  let r := takeStatus dev.id stream
  let evs := evs ++ [Event.getStatus dev.id]
  if r.1.healthCheck = false then
    { events := evs ++ [Event.notify Sev.error], ok := false,
      historyStatus := none, stream := r.2 }
  else
    let pubEv := Event.publish (dev.id ++ "/cmd/trigger_solenoid_valve")
      (toString dev.scheduleDuration)
    { events := evs ++ [pubEv, Event.notify Sev.success], ok := true,
      historyStatus := none, stream := r.2 }

/-- Scheduler.processSprinklerDevice: calibration phase then task phase;
on success the history record is saved with status completed. -/
def processSprinklerDevice (dev : DeviceConfig) (files : TaskFiles)
    (stream : List DeviceStatus) : PhaseResult :=
  let c := runCalibration dev stream
  if c.ok = false then c
  else
    let t := runDeviceTasks dev files c.stream
    if t.ok = false then
      { events := c.events ++ t.events, ok := false,
        historyStatus := t.historyStatus, stream := t.stream }
    else
      { events := c.events ++ t.events ++ [Event.notify Sev.success], ok := true,
        historyStatus := some "completed", stream := t.stream }

/-- Scheduler.runDeviceJob: dispatch on the device type; a processor
error is logged and notified but NOT returned (the Go function has no
return value); an unknown type is skipped. -/
def runDeviceJob (dev : DeviceConfig) (files : TaskFiles)
    (stream : List DeviceStatus) : List Event × List DeviceStatus :=
  match dev.type' with
  | "iot_sprinkler" =>
    let r := processSprinklerDevice dev files stream
    (r.events ++ (if r.ok then [] else [Event.notify Sev.error]), r.stream)
  | "iot_plant_pot" =>
    let r := processPlantPotDevice dev stream
    (r.events ++ (if r.ok then [] else [Event.notify Sev.error]), r.stream)
  | _ => ([], stream)

/-- The device search loop of Scheduler.RunJobForDevice: run the job of
the first configured device with the requested ID and return nil, or
fall through to the device-not-found error. -/
def runJobAux (files : TaskFiles) (deviceID : String) :
    List DeviceConfig → List DeviceStatus → Option String × List Event × List DeviceStatus
  | [], stream =>
    (some ("device with ID " ++ deviceID ++ " not found"),
      [Event.notify Sev.error], stream)
  | d :: rest, stream =>
    if d.id = deviceID then
      let r := runDeviceJob d files stream
      (none, r.1 ++ [Event.notify Sev.success], r.2)
    else
      runJobAux files deviceID rest stream

/-- Scheduler.RunJobForDevice: the synchronous manual-run entry point. -/
def RunJobForDevice (cfg : Config) (files : TaskFiles) (stream : List DeviceStatus)
    (deviceID : String) : Option String × List Event × List DeviceStatus :=
  let r := runJobAux files deviceID cfg.devices stream
  (r.1, Event.notify Sev.info :: r.2.1, r.2.2)

/-! ## Event counting helpers -/

/-- Number of reset events in a trace. -/
def countReset (evs : List Event) : Nat :=
  evs.countP (fun e => match e with | .reset _ => true | _ => false)

/-- Number of publish events to the given topic in a trace. -/
def countPubTopic (evs : List Event) (topic : String) : Nat :=
  evs.countP (fun e => match e with | .publish t _ => t = topic | _ => false)

/-- Number of publish events (to any topic) in a trace. -/
def countPub (evs : List Event) : Nat :=
  evs.countP (fun e => match e with | .publish _ _ => true | _ => false)

/-- Number of poll events in a trace. -/
def countPoll (evs : List Event) : Nat :=
  evs.countP (fun e => match e with | .poll _ => true | _ => false)

/-- Projection keeping the reset / publish / sleep command events and
dropping the status reads, polls and notifications. -/
def isCommandEv (e : Event) : Bool :=
  match e with
  | .reset _ => true
  | .publish _ _ => true
  | .sleepSec _ => true
  | _ => false

/-- The deviceID the message handler extracts: the first '/'-segment. -/
def topicDevice (topic : String) : String :=
  String.mk ((splitParts '/' topic).headD [])

/-! ## Concrete fixtures used by witnesses and counterexamples -/

/-- A concrete plant-pot device configuration. -/
def potFixture : DeviceConfig :=
  { id := "pot1", type' := "iot_plant_pot", scheduleTimes := [],
    scheduleDuration := 10, taskIDs := [] }

/-- A concrete sprinkler device configuration with three task IDs. -/
def sprinklerFixture : DeviceConfig :=
  { id := "dev1", type' := "iot_sprinkler", scheduleTimes := [],
    scheduleDuration := 0, taskIDs := ["t1", "t2", "t3"] }

/-- Task files for the three tasks of sprinklerFixture. -/
def filesFixture : TaskFiles :=
  [(taskFilePath "dev1" "t1", { payload := "p1", timeoutMinutes := 1 }),
   (taskFilePath "dev1" "t2", { payload := "p2", timeoutMinutes := 1 }),
   (taskFilePath "dev1" "t3", { payload := "p3", timeoutMinutes := 1 })]

/-- A dev1 snapshot reporting all tasks complete. -/
def doneStatus : DeviceStatus :=
  { emptyStatus "dev1" with taskAllComplete := true }

/-- A dev1 snapshot reporting both axes calibrated. -/
def calibratedStatus : DeviceStatus :=
  { emptyStatus "dev1" with sprinklerCalibComplete := true, valveCalibComplete := true }

/-- A pot1 snapshot with the health check passed. -/
def healthyStatus : DeviceStatus :=
  { emptyStatus "pot1" with healthCheck := true }

/-! ## Helper lemmas -/

theorem lookup_putStore_self (st : Store) (id : String) (v : DeviceStatus) :
    lookupStore (putStore st id v) id = some v := by
  induction st with
  | nil => simp [putStore, lookupStore]
  | cons hd tl ih =>
    obtain ⟨k, w⟩ := hd
    by_cases hk : k = id
    · simp [putStore, hk, lookupStore]
    · simp [putStore, hk, lookupStore, ih]

/-! ## Claim C7 -/

/-- Claim C7: for every device ID, including one never seen before, the
status store's get operation never fails and never returns an absent or
nil result: an unseen device (no entry in the store) yields a freshly
zero-valued snapshot — all boolean flags false, all numeric fields zero,
empty task array. -/
theorem GetDeviceStatus_unseen_zero (st : Store) (id : String)
    (h : lookupStore st id = none) :
    GetDeviceStatus st id =
      { deviceID := id
        healthCheck := false
        sprinklerPosition := 0
        valvePosition := 0
        sprinklerCalibComplete := false
        valveCalibComplete := false
        valveIsAtTarget := false
        taskCurrentIndex := 0
        taskCurrentCount := 0
        taskAllComplete := false
        taskArray := "" } := by
  simp [GetDeviceStatus, h, emptyStatus]

/-- Witness for C7: the empty store has no entry for dev1, and get
returns the zero-valued snapshot there. -/
theorem GetDeviceStatus_unseen_zero_witness :
    lookupStore ([] : Store) "dev1" = none ∧
    GetDeviceStatus ([] : Store) "dev1" =
      { deviceID := "dev1"
        healthCheck := false
        sprinklerPosition := 0
        valvePosition := 0
        sprinklerCalibComplete := false
        valveCalibComplete := false
        valveIsAtTarget := false
        taskCurrentIndex := 0
        taskCurrentCount := 0
        taskAllComplete := false
        taskArray := "" } :=
  ⟨rfl, GetDeviceStatus_unseen_zero [] "dev1" rfl⟩

/-! ## Claim C8 -/

/-- Claim C8: for every device ID and every prior store state,
reset(deviceID) replaces the device's entry with a fresh zero-valued
snapshot, discarding all prior field values, so a get immediately after
reset returns an all-zero snapshot regardless of what was stored. -/
theorem ResetDeviceStatus_zero (st : Store) (id : String) :
    GetDeviceStatus (ResetDeviceStatus st id) id =
      { deviceID := id
        healthCheck := false
        sprinklerPosition := 0
        valvePosition := 0
        sprinklerCalibComplete := false
        valveCalibComplete := false
        valveIsAtTarget := false
        taskCurrentIndex := 0
        taskCurrentCount := 0
        taskAllComplete := false
        taskArray := "" } := by
  simp [GetDeviceStatus, ResetDeviceStatus, lookup_putStore_self, emptyStatus]

/-! ## Claim C4 (corrected)

Client.Publish requests QoS 1 (at-least-once) and waits on the token,
but the Go method has no error return value: a transport-reported
failure is logged and swallowed, never returned to the caller. -/

/-- Counterexample for C4: with a transport that reports a failure for
every request, Publish logs the error yet the caller receives no error —
refuting the claim that publish failures are returned to the caller. -/
theorem Publish_error_swallowed_counterexample :
    (Publish (fun _ => some "publish timeout") "dev1/cmd/sprinkler/home" "1").loggedError
      = some "publish timeout" ∧
    (Publish (fun _ => some "publish timeout") "dev1/cmd/sprinkler/home" "1").returnedError
      = none :=
  ⟨rfl, rfl⟩

/-- Claim C4 as amended: every publish requests at-least-once (QoS 1)
non-retained delivery and waits on the acknowledgement token, but any
publish failure is only logged — the caller always receives no error,
because the method has no error return value. -/
theorem Publish_amended (transport : PubRequest → Option String) (topic payload : String) :
    (Publish transport topic payload).request.qos = 1 ∧
    (Publish transport topic payload).request.retained = false ∧
    (Publish transport topic payload).request.topic = topic ∧
    (Publish transport topic payload).request.payload = payload ∧
    (Publish transport topic payload).loggedError = transport (Publish transport topic payload).request ∧
    (Publish transport topic payload).returnedError = none :=
  ⟨rfl, rfl, rfl, rfl, rfl, rfl⟩

/-! ## Claim C3 (corrected)

The stricter token does wire a 5-minute window and a generic token a
1-minute window, and every attempt made while the backoff field is set
is dropped and reported as not sent.  But expiry is NOT evaluated lazily
at the next send attempt: the state records no window start, the
in-line check of SendRichMessage compares time.Now() against
time.Now().Add(-backoff) (never true for a positive backoff) and is
unreachable through SendRichMessageSafe anyway; the field is cleared
only by the background goroutine spawned by handleRateLimit. -/

/-- Counterexample for C3: the window is entered at clock 0 with the
stricter token, so its 5-minute (300 s) duration has elapsed by clock
301.  Yet the send attempt at clock 301 is still dropped and the state
unchanged — the simulated clock advance does not expire the window, so
the next attempt is not processed normally and expiry is not evaluated
lazily at the attempt. -/
theorem slack_lazy_expiry_counterexample :
    (handleRateLimit "message_limit_exceeded" ⟨0⟩).rateLimitBackoff = 300 ∧
    (SendRichMessageSafe 301 none (handleRateLimit "message_limit_exceeded" ⟨0⟩)).1 = false ∧
    (SendRichMessageSafe 301 none
      (handleRateLimit "message_limit_exceeded" ⟨0⟩)).2.rateLimitBackoff = 300 := by
  decide

/-- Claim C3 as amended: message_limit_exceeded starts a 5-minute (300 s)
backoff and any other matched rate-limit token a 1-minute (60 s) one;
while the backoff field is set every send attempt is dropped and
reported as not sent with the state unchanged; the window is cleared
only by the background reset goroutine, after which the next attempt is
processed normally — a clock advance alone never expires it (the lazy
in-line check is dead code). -/
theorem slack_backoff_amended (err : String) (st : SlackState) (clock : Int)
    (postErr : Option String) :
    (containsStr (lowerStr err) "message_limit_exceeded" = true →
      (handleRateLimit err st).rateLimitBackoff = 300) ∧
    (containsStr (lowerStr err) "message_limit_exceeded" = false →
      (handleRateLimit err st).rateLimitBackoff = 60) ∧
    (IsRateLimited st = true → SendRichMessageSafe clock postErr st = (false, st)) ∧
    (SendRichMessageSafe clock postErr (backgroundResetBackoff st)).1 = true := by
  refine ⟨fun h => ?_, fun h => ?_, fun h => ?_, ?_⟩
  · simp [handleRateLimit, h]
  · simp [handleRateLimit, h]
  · simp [SendRichMessageSafe, h]
  · simp [SendRichMessageSafe, IsRateLimited, backgroundResetBackoff]

/-- Witness for the amended C3 at concrete inputs: the stricter token
yields 300 s, a generic token 60 s, an attempt inside the window is
dropped, and an attempt after the background reset is processed. -/
theorem slack_backoff_amended_witness :
    (containsStr (lowerStr "message_limit_exceeded") "message_limit_exceeded" = true ∧
      (handleRateLimit "message_limit_exceeded" ⟨0⟩).rateLimitBackoff = 300) ∧
    (containsStr (lowerStr "rate_limited") "message_limit_exceeded" = false ∧
      (handleRateLimit "rate_limited" ⟨0⟩).rateLimitBackoff = 60) ∧
    (IsRateLimited ⟨60⟩ = true ∧ SendRichMessageSafe 5 none ⟨60⟩ = (false, ⟨60⟩)) ∧
    (SendRichMessageSafe 5 none (backgroundResetBackoff ⟨60⟩)).1 = true :=
  ⟨⟨by decide, (slack_backoff_amended "message_limit_exceeded" ⟨0⟩ 5 none).1 (by decide)⟩,
   ⟨by decide, (slack_backoff_amended "rate_limited" ⟨0⟩ 5 none).2.1 (by decide)⟩,
   ⟨by decide, (slack_backoff_amended "x" ⟨60⟩ 5 none).2.2.1 (by decide)⟩,
   (slack_backoff_amended "x" ⟨60⟩ 5 none).2.2.2⟩

/-! ## Claim C6 -/

/-- Claim C6: for a plant-pot device the health-check flag is the single
gate: when false the job fails with an error notification and no
trigger publish; when true exactly one trigger command is published,
its payload carrying the configured schedule duration, success is
notified, and no polling wait is performed either way. -/
theorem processPlantPotDevice_gate (dev : DeviceConfig) (stream : List DeviceStatus) :
    ((takeStatus dev.id stream).1.healthCheck = false →
      (processPlantPotDevice dev stream).ok = false ∧
      countPub (processPlantPotDevice dev stream).events = 0 ∧
      countPoll (processPlantPotDevice dev stream).events = 0 ∧
      Event.notify Sev.error ∈ (processPlantPotDevice dev stream).events) ∧
    ((takeStatus dev.id stream).1.healthCheck = true →
      (processPlantPotDevice dev stream).ok = true ∧
      countPub (processPlantPotDevice dev stream).events = 1 ∧
      Event.publish (dev.id ++ "/cmd/trigger_solenoid_valve")
        (toString dev.scheduleDuration) ∈ (processPlantPotDevice dev stream).events ∧
      countPoll (processPlantPotDevice dev stream).events = 0 ∧
      Event.notify Sev.success ∈ (processPlantPotDevice dev stream).events) := by
  constructor
  · intro h
    simp [processPlantPotDevice, h, countPub, countPoll, List.countP_cons]
  · intro h
    simp [processPlantPotDevice, h, countPub, countPoll, List.countP_cons]

/-- Witness for C6 at concrete inputs: a failing health check aborts
without a publish, and a passing one issues exactly one trigger
publish carrying the duration, with no polling. -/
theorem processPlantPotDevice_gate_witness :
    ((takeStatus potFixture.id [emptyStatus "pot1"]).1.healthCheck = false ∧
      ((processPlantPotDevice potFixture [emptyStatus "pot1"]).ok = false ∧
        countPub (processPlantPotDevice potFixture [emptyStatus "pot1"]).events = 0 ∧
        countPoll (processPlantPotDevice potFixture [emptyStatus "pot1"]).events = 0 ∧
        Event.notify Sev.error ∈ (processPlantPotDevice potFixture [emptyStatus "pot1"]).events)) ∧
    ((takeStatus potFixture.id [healthyStatus]).1.healthCheck = true ∧
      ((processPlantPotDevice potFixture [healthyStatus]).ok = true ∧
        countPub (processPlantPotDevice potFixture [healthyStatus]).events = 1 ∧
        Event.publish (potFixture.id ++ "/cmd/trigger_solenoid_valve")
          (toString potFixture.scheduleDuration) ∈
            (processPlantPotDevice potFixture [healthyStatus]).events ∧
        countPoll (processPlantPotDevice potFixture [healthyStatus]).events = 0 ∧
        Event.notify Sev.success ∈ (processPlantPotDevice potFixture [healthyStatus]).events)) :=
  ⟨⟨by decide, (processPlantPotDevice_gate potFixture [emptyStatus "pot1"]).1 (by decide)⟩,
   ⟨by decide, (processPlantPotDevice_gate potFixture [healthyStatus]).2 (by decide)⟩⟩

/-! ## Claim C9 (corrected)

RunJobForDevice does return the device-not-found error for an absent
ID, but for a present device it always returns nil: runDeviceJob has no
return value and swallows the processor's error (it is only logged and
notified), so the synchronous caller does NOT observe an error when the
device's job fails. -/

/-- Counterexample for C9: a configured plant-pot device whose health
check fails — its job fails (the processor returns an error), yet
RunJobForDevice returns nil to the synchronous caller. -/
theorem RunJobForDevice_error_swallowed_counterexample :
    (processPlantPotDevice potFixture [emptyStatus "pot1"]).ok = false ∧
    (RunJobForDevice ⟨[potFixture]⟩ [] [emptyStatus "pot1"] "pot1").1 = none := by
  decide

/-- Claim C9 as amended: an ID absent from the configured device list
fails with the device-not-found error; for a present ID the call always
returns nil — job failures are only logged and notified, never
propagated through the return value. -/
theorem RunJobForDevice_amended (cfg : Config) (files : TaskFiles)
    (stream : List DeviceStatus) (deviceID : String) :
    ((∀ d ∈ cfg.devices, d.id ≠ deviceID) →
      (RunJobForDevice cfg files stream deviceID).1 =
        some ("device with ID " ++ deviceID ++ " not found")) ∧
    ((∃ d ∈ cfg.devices, d.id = deviceID) →
      (RunJobForDevice cfg files stream deviceID).1 = none) := by
  have key : ∀ (ds : List DeviceConfig) (s : List DeviceStatus),
      ((∀ d ∈ ds, d.id ≠ deviceID) →
        (runJobAux files deviceID ds s).1 =
          some ("device with ID " ++ deviceID ++ " not found")) ∧
      ((∃ d ∈ ds, d.id = deviceID) →
        (runJobAux files deviceID ds s).1 = none) := by
    intro ds
    induction ds with
    | nil =>
      intro s
      refine ⟨fun _ => rfl, fun h => ?_⟩
      simp at h
    | cons hd tl ih =>
      intro s
      by_cases hid : hd.id = deviceID
      · refine ⟨fun h => ?_, fun _ => ?_⟩
        · exact absurd hid (h hd (by simp))
        · simp [runJobAux, hid]
      · refine ⟨fun h => ?_, fun h => ?_⟩
        · have := (ih s).1 (fun d hd' => h d (by simp [hd']))
          simpa [runJobAux, hid] using this
        · rcases h with ⟨d, hmem, hdid⟩
          rcases List.mem_cons.mp hmem with h1 | h1
          · exact absurd (h1 ▸ hdid) hid
          · have := (ih s).2 ⟨d, h1, hdid⟩
            simpa [runJobAux, hid] using this
  constructor
  · intro h
    simpa [RunJobForDevice] using (key cfg.devices stream).1 h
  · intro h
    simpa [RunJobForDevice] using (key cfg.devices stream).2 h

/-- Witness for the amended C9 at concrete inputs: an absent ID yields
the not-found error; a present ID (whose job fails) yields nil. -/
theorem RunJobForDevice_amended_witness :
    ((∀ d ∈ (⟨[potFixture]⟩ : Config).devices, d.id ≠ "ghost") ∧
      (RunJobForDevice ⟨[potFixture]⟩ [] [] "ghost").1 =
        some ("device with ID " ++ "ghost" ++ " not found")) ∧
    ((∃ d ∈ (⟨[potFixture]⟩ : Config).devices, d.id = "pot1") ∧
      (RunJobForDevice ⟨[potFixture]⟩ [] [] "pot1").1 = none) :=
  ⟨⟨by decide, (RunJobForDevice_amended ⟨[potFixture]⟩ [] [] "ghost").1 (by decide)⟩,
   ⟨⟨potFixture, by simp, rfl⟩,
    (RunJobForDevice_amended ⟨[potFixture]⟩ [] [] "pot1").2 ⟨potFixture, by simp, rfl⟩⟩⟩

/-! ## Claim C10 -/

/-- Claim C10: a message whose topic has at least three '/'-separated
segments inserts a zero-valued status entry for the topic's device ID
when none exists yet — even when the suffix is unrecognized and the
message is dropped without updating any field (the store then holds
exactly the fresh zero-valued entry) — whereas a topic with fewer than
three segments leaves the store completely unchanged. -/
theorem messageHandler_insertion (st : Store) (topic payload : String) :
    ((splitParts '/' topic).length < 3 → messageHandler st topic payload = st) ∧
    (3 ≤ (splitParts '/' topic).length →
      lookupStore st (topicDevice topic) = none →
      dispatchField topic payload (emptyStatus (topicDevice topic)) = none →
      messageHandler st topic payload =
        putStore st (topicDevice topic) (emptyStatus (topicDevice topic))) ∧
    (3 ≤ (splitParts '/' topic).length →
      lookupStore st (topicDevice topic) = none →
      lookupStore (messageHandler st topic payload) (topicDevice topic) ≠ none) := by
  refine ⟨fun h => ?_, fun hlen hload hdisp => ?_, fun hlen hload => ?_⟩
  · simp [messageHandler, h]
  · have hlt : ¬((splitParts '/' topic).length < 3) := by omega
    simp only [topicDevice, List.headD_eq_head?] at hload hdisp ⊢
    simp [messageHandler, loadOrStore, hlt, hload, hdisp, List.headD_eq_head?]
  · have hlt : ¬((splitParts '/' topic).length < 3) := by omega
    simp only [topicDevice, List.headD_eq_head?] at hload ⊢
    cases hdisp : dispatchField topic payload
        (emptyStatus (String.mk ((splitParts '/' topic).head?.getD []))) with
    | none =>
      simp [messageHandler, loadOrStore, hlt, hload, hdisp, lookup_putStore_self,
        List.headD_eq_head?]
    | some s' =>
      simp [messageHandler, loadOrStore, hlt, hload, hdisp, lookup_putStore_self,
        List.headD_eq_head?]

/-- Witness for C10: a three-segment topic with an unrecognized suffix
inserts the zero-valued entry into an empty store, and a one-segment
topic leaves the store unchanged. -/
theorem messageHandler_insertion_witness :
    ((splitParts '/' "short").length < 3 ∧ messageHandler [] "short" "x" = []) ∧
    (3 ≤ (splitParts '/' "dev2/status/unknown").length ∧
      lookupStore ([] : Store) (topicDevice "dev2/status/unknown") = none ∧
      dispatchField "dev2/status/unknown" "x"
        (emptyStatus (topicDevice "dev2/status/unknown")) = none ∧
      messageHandler [] "dev2/status/unknown" "x" =
        putStore [] (topicDevice "dev2/status/unknown")
          (emptyStatus (topicDevice "dev2/status/unknown"))) :=
  ⟨⟨by decide, (messageHandler_insertion [] "short" "x").1 (by decide)⟩,
   ⟨by decide, by decide, by decide,
    (messageHandler_insertion [] "dev2/status/unknown" "x").2.1
      (by decide) (by decide) (by decide)⟩⟩

/-! ## Suffix disambiguation: no topic matches two distinct branches of
the messageHandler switch, because none of the nine suffix literals is a
suffix of another. -/

theorem leadMatch_total : ∀ (l a b : List Char),
    leadMatch a l = true → leadMatch b l = true →
    leadMatch a b = true ∨ leadMatch b a = true := by
  intro l
  induction l with
  | nil =>
    intro a b ha hb
    cases a with
    | nil => exact Or.inl rfl
    | cons x xs => simp [leadMatch] at ha
  | cons z zs ih =>
    intro a b ha hb
    cases a with
    | nil => exact Or.inl rfl
    | cons x xs =>
      cases b with
      | nil => exact Or.inr rfl
      | cons y ys =>
        simp only [leadMatch, Bool.and_eq_true, decide_eq_true_eq] at ha hb
        rcases ih xs ys ha.2 hb.2 with h | h
        · exact Or.inl (by simp [leadMatch, ha.1, hb.1, h])
        · exact Or.inr (by simp [leadMatch, ha.1, hb.1, h])

theorem endsWith_excl {A B : String}
    (hAB : leadMatch A.data.reverse B.data.reverse = false)
    (hBA : leadMatch B.data.reverse A.data.reverse = false)
    (s : String) (hA : endsWithStr s A = true) : endsWithStr s B = false := by
  cases hB : endsWithStr s B with
  | false => rfl
  | true =>
    rcases leadMatch_total s.data.reverse A.data.reverse B.data.reverse hA hB with h | h
    · rw [hAB] at h
      exact absurd h (by simp)
    · rw [hBA] at h
      exact absurd h (by simp)

/-! ## Failure-time values of the strconv parser models -/

theorem goParseBool_fail (s : String) :
    (goParseBool s).2 = false → (goParseBool s).1 = false := by
  unfold goParseBool
  split
  · simp
  · split <;> simp

theorem goAtoi_fail (s : String) :
    (goAtoi s).2 = false →
    (goAtoi s).1 = 0 ∨ (goAtoi s).1 = int64Max ∨ (goAtoi s).1 = int64Min := by
  unfold goAtoi
  split <;> split <;> (try split) <;> simp

theorem goParseFloat_fail (s : String) :
    (goParseFloat s).2 = false →
    (goParseFloat s).1 = GoFloat.finite 0 ∨ (goParseFloat s).1 = GoFloat.posInf ∨
      (goParseFloat s).1 = GoFloat.negInf := by
  unfold goParseFloat
  split
  · simp
  · split
    · split
      · simp
      · split
        · simp
        · split
          · simp
          · split
            · simp
            · simp
    · simp

/-! ## Per-branch dispatch lemmas: which update each recognized suffix
applies (the exclusion facts discharge the earlier branches of the
switch chain). -/

theorem dispatch_healthCheck (topic payload : String) (status : DeviceStatus)
    (hE : endsWithStr topic "/status/health_check" = true) :
    dispatchField topic payload status =
      some { status with healthCheck := (goParseBool payload).1 } := by
  simp [dispatchField, hE]

theorem dispatch_sprinklerPosition (topic payload : String) (status : DeviceStatus)
    (hE : endsWithStr topic "/status/sprinkler/position" = true) :
    dispatchField topic payload status =
      some { status with sprinklerPosition := (goParseFloat payload).1 } := by
  have e1 : endsWithStr topic "/status/health_check" = false :=
    endsWith_excl (by decide) (by decide) topic hE
  simp [dispatchField, hE, e1]

theorem dispatch_valvePosition (topic payload : String) (status : DeviceStatus)
    (hE : endsWithStr topic "/status/valve/position" = true) :
    dispatchField topic payload status =
      some { status with valvePosition := (goParseFloat payload).1 } := by
  have e1 : endsWithStr topic "/status/health_check" = false :=
    endsWith_excl (by decide) (by decide) topic hE
  have e2 : endsWithStr topic "/status/sprinkler/position" = false :=
    endsWith_excl (by decide) (by decide) topic hE
  simp [dispatchField, hE, e1, e2]

theorem dispatch_sprinklerCalibComplete (topic payload : String) (status : DeviceStatus)
    (hE : endsWithStr topic "/status/sprinkler/calib_complete" = true) :
    dispatchField topic payload status =
      some { status with sprinklerCalibComplete := (goParseBool payload).1 } := by
  have e1 : endsWithStr topic "/status/health_check" = false :=
    endsWith_excl (by decide) (by decide) topic hE
  have e2 : endsWithStr topic "/status/sprinkler/position" = false :=
    endsWith_excl (by decide) (by decide) topic hE
  have e3 : endsWithStr topic "/status/valve/position" = false :=
    endsWith_excl (by decide) (by decide) topic hE
  simp [dispatchField, hE, e1, e2, e3]

theorem dispatch_valveCalibComplete (topic payload : String) (status : DeviceStatus)
    (hE : endsWithStr topic "/status/valve/calib_complete" = true) :
    dispatchField topic payload status =
      some { status with valveCalibComplete := (goParseBool payload).1 } := by
  have e1 : endsWithStr topic "/status/health_check" = false :=
    endsWith_excl (by decide) (by decide) topic hE
  have e2 : endsWithStr topic "/status/sprinkler/position" = false :=
    endsWith_excl (by decide) (by decide) topic hE
  have e3 : endsWithStr topic "/status/valve/position" = false :=
    endsWith_excl (by decide) (by decide) topic hE
  have e4 : endsWithStr topic "/status/sprinkler/calib_complete" = false :=
    endsWith_excl (by decide) (by decide) topic hE
  simp [dispatchField, hE, e1, e2, e3, e4]

theorem dispatch_valveIsAtTarget (topic payload : String) (status : DeviceStatus)
    (hE : endsWithStr topic "/status/valve/target" = true) :
    dispatchField topic payload status =
      some { status with valveIsAtTarget := (goParseBool payload).1 } := by
  have e1 : endsWithStr topic "/status/health_check" = false :=
    endsWith_excl (by decide) (by decide) topic hE
  have e2 : endsWithStr topic "/status/sprinkler/position" = false :=
    endsWith_excl (by decide) (by decide) topic hE
  have e3 : endsWithStr topic "/status/valve/position" = false :=
    endsWith_excl (by decide) (by decide) topic hE
  have e4 : endsWithStr topic "/status/sprinkler/calib_complete" = false :=
    endsWith_excl (by decide) (by decide) topic hE
  have e5 : endsWithStr topic "/status/valve/calib_complete" = false :=
    endsWith_excl (by decide) (by decide) topic hE
  simp [dispatchField, hE, e1, e2, e3, e4, e5]

theorem dispatch_taskCurrentIndex (topic payload : String) (status : DeviceStatus)
    (hE : endsWithStr topic "/status/task/current_index" = true) :
    dispatchField topic payload status =
      some { status with taskCurrentIndex := (goAtoi payload).1 } := by
  have e1 : endsWithStr topic "/status/health_check" = false :=
    endsWith_excl (by decide) (by decide) topic hE
  have e2 : endsWithStr topic "/status/sprinkler/position" = false :=
    endsWith_excl (by decide) (by decide) topic hE
  have e3 : endsWithStr topic "/status/valve/position" = false :=
    endsWith_excl (by decide) (by decide) topic hE
  have e4 : endsWithStr topic "/status/sprinkler/calib_complete" = false :=
    endsWith_excl (by decide) (by decide) topic hE
  have e5 : endsWithStr topic "/status/valve/calib_complete" = false :=
    endsWith_excl (by decide) (by decide) topic hE
  have e6 : endsWithStr topic "/status/valve/target" = false :=
    endsWith_excl (by decide) (by decide) topic hE
  simp [dispatchField, hE, e1, e2, e3, e4, e5, e6]

theorem dispatch_taskCurrentCount (topic payload : String) (status : DeviceStatus)
    (hE : endsWithStr topic "/status/task/current_count" = true) :
    dispatchField topic payload status =
      some { status with taskCurrentCount := (goAtoi payload).1 } := by
  have e1 : endsWithStr topic "/status/health_check" = false :=
    endsWith_excl (by decide) (by decide) topic hE
  have e2 : endsWithStr topic "/status/sprinkler/position" = false :=
    endsWith_excl (by decide) (by decide) topic hE
  have e3 : endsWithStr topic "/status/valve/position" = false :=
    endsWith_excl (by decide) (by decide) topic hE
  have e4 : endsWithStr topic "/status/sprinkler/calib_complete" = false :=
    endsWith_excl (by decide) (by decide) topic hE
  have e5 : endsWithStr topic "/status/valve/calib_complete" = false :=
    endsWith_excl (by decide) (by decide) topic hE
  have e6 : endsWithStr topic "/status/valve/target" = false :=
    endsWith_excl (by decide) (by decide) topic hE
  have e7 : endsWithStr topic "/status/task/current_index" = false :=
    endsWith_excl (by decide) (by decide) topic hE
  simp [dispatchField, hE, e1, e2, e3, e4, e5, e6, e7]

theorem dispatch_taskAllComplete (topic payload : String) (status : DeviceStatus)
    (hE : endsWithStr topic "/status/task/all_complete" = true) :
    dispatchField topic payload status =
      some { status with taskAllComplete := (goParseBool payload).1 } := by
  have e1 : endsWithStr topic "/status/health_check" = false :=
    endsWith_excl (by decide) (by decide) topic hE
  have e2 : endsWithStr topic "/status/sprinkler/position" = false :=
    endsWith_excl (by decide) (by decide) topic hE
  have e3 : endsWithStr topic "/status/valve/position" = false :=
    endsWith_excl (by decide) (by decide) topic hE
  have e4 : endsWithStr topic "/status/sprinkler/calib_complete" = false :=
    endsWith_excl (by decide) (by decide) topic hE
  have e5 : endsWithStr topic "/status/valve/calib_complete" = false :=
    endsWith_excl (by decide) (by decide) topic hE
  have e6 : endsWithStr topic "/status/valve/target" = false :=
    endsWith_excl (by decide) (by decide) topic hE
  have e7 : endsWithStr topic "/status/task/current_index" = false :=
    endsWith_excl (by decide) (by decide) topic hE
  have e8 : endsWithStr topic "/status/task/current_count" = false :=
    endsWith_excl (by decide) (by decide) topic hE
  simp [dispatchField, hE, e1, e2, e3, e4, e5, e6, e7, e8]

/-- When the dispatch matches, messageHandler stores the updated entry
under the topic's device ID. -/
theorem messageHandler_eq_of_dispatch (st : Store) (topic payload : String)
    (status' : DeviceStatus) (hL : 3 ≤ (splitParts '/' topic).length)
    (hd : dispatchField topic payload (loadOrStore st (topicDevice topic)).1 = some status') :
    messageHandler st topic payload =
      putStore (loadOrStore st (topicDevice topic)).2 (topicDevice topic) status' := by
  have hlt : ¬((splitParts '/' topic).length < 3) := by omega
  simp only [topicDevice, List.headD_eq_head?] at hd ⊢
  simp [messageHandler, hlt, hd, List.headD_eq_head?]

/-! ## Claim C5 (corrected)

The Go switch assigns `status.Field, err = strconv.Parse...(payload)`
and checks err only afterwards; the map holds a pointer to the status,
so on a parse failure the targeted field has already been overwritten
with the parser's failure-time value (false for ParseBool, 0 for
ParseFloat/Atoi) before the message is dropped.  The snapshot fields
are therefore NOT left unchanged. -/

/-- Counterexample for C5: dev1's snapshot has healthCheck = true; a
health-check message whose payload fails to parse as a boolean leaves
the snapshot with healthCheck = false (the whole entry collapses back
to the zero-valued snapshot), refuting "the device's status snapshot
fields are unchanged". -/
theorem messageHandler_parse_failure_counterexample :
    lookupStore [("d1", { emptyStatus "d1" with healthCheck := true })] "d1" =
      some { emptyStatus "d1" with healthCheck := true } ∧
    (goParseBool "garbage").2 = false ∧
    lookupStore
      (messageHandler [("d1", { emptyStatus "d1" with healthCheck := true })]
        "d1/status/health_check" "garbage") "d1" = some (emptyStatus "d1") := by
  decide

/-- Claim C5 as amended: a payload that fails to parse for its topic
suffix is dropped, but only after the targeted field has been
overwritten with the parser's failure-time value — false for a boolean
suffix; for an integer suffix 0 on a syntax error or the clamped 64-bit
extreme on a range error; for a float suffix 0 on a syntax or underflow
error or the signed infinity on overflow (the last two conjuncts pin
the possible failure-time values).  Every other field of the snapshot
is unchanged, and the dispatcher continues with subsequent messages
unaffected. -/
theorem messageHandler_parse_failure_amended (st : Store) (topic payload : String)
    (rest : List (String × String)) :
    (endsWithStr topic "/status/health_check" = true →
      (goParseBool payload).2 = false → 3 ≤ (splitParts '/' topic).length →
      messageHandler st topic payload =
        putStore (loadOrStore st (topicDevice topic)).2 (topicDevice topic)
          { (loadOrStore st (topicDevice topic)).1 with healthCheck := false }) ∧
    (endsWithStr topic "/status/sprinkler/position" = true →
      (goParseFloat payload).2 = false → 3 ≤ (splitParts '/' topic).length →
      messageHandler st topic payload =
        putStore (loadOrStore st (topicDevice topic)).2 (topicDevice topic)
          { (loadOrStore st (topicDevice topic)).1 with
              sprinklerPosition := (goParseFloat payload).1 }) ∧
    (endsWithStr topic "/status/valve/position" = true →
      (goParseFloat payload).2 = false → 3 ≤ (splitParts '/' topic).length →
      messageHandler st topic payload =
        putStore (loadOrStore st (topicDevice topic)).2 (topicDevice topic)
          { (loadOrStore st (topicDevice topic)).1 with
              valvePosition := (goParseFloat payload).1 }) ∧
    (endsWithStr topic "/status/sprinkler/calib_complete" = true →
      (goParseBool payload).2 = false → 3 ≤ (splitParts '/' topic).length →
      messageHandler st topic payload =
        putStore (loadOrStore st (topicDevice topic)).2 (topicDevice topic)
          { (loadOrStore st (topicDevice topic)).1 with sprinklerCalibComplete := false }) ∧
    (endsWithStr topic "/status/valve/calib_complete" = true →
      (goParseBool payload).2 = false → 3 ≤ (splitParts '/' topic).length →
      messageHandler st topic payload =
        putStore (loadOrStore st (topicDevice topic)).2 (topicDevice topic)
          { (loadOrStore st (topicDevice topic)).1 with valveCalibComplete := false }) ∧
    (endsWithStr topic "/status/valve/target" = true →
      (goParseBool payload).2 = false → 3 ≤ (splitParts '/' topic).length →
      messageHandler st topic payload =
        putStore (loadOrStore st (topicDevice topic)).2 (topicDevice topic)
          { (loadOrStore st (topicDevice topic)).1 with valveIsAtTarget := false }) ∧
    (endsWithStr topic "/status/task/current_index" = true →
      (goAtoi payload).2 = false → 3 ≤ (splitParts '/' topic).length →
      messageHandler st topic payload =
        putStore (loadOrStore st (topicDevice topic)).2 (topicDevice topic)
          { (loadOrStore st (topicDevice topic)).1 with
              taskCurrentIndex := (goAtoi payload).1 }) ∧
    (endsWithStr topic "/status/task/current_count" = true →
      (goAtoi payload).2 = false → 3 ≤ (splitParts '/' topic).length →
      messageHandler st topic payload =
        putStore (loadOrStore st (topicDevice topic)).2 (topicDevice topic)
          { (loadOrStore st (topicDevice topic)).1 with
              taskCurrentCount := (goAtoi payload).1 }) ∧
    (endsWithStr topic "/status/task/all_complete" = true →
      (goParseBool payload).2 = false → 3 ≤ (splitParts '/' topic).length →
      messageHandler st topic payload =
        putStore (loadOrStore st (topicDevice topic)).2 (topicDevice topic)
          { (loadOrStore st (topicDevice topic)).1 with taskAllComplete := false }) ∧
    ((goParseFloat payload).2 = false →
      (goParseFloat payload).1 = GoFloat.finite 0 ∨
      (goParseFloat payload).1 = GoFloat.posInf ∨
      (goParseFloat payload).1 = GoFloat.negInf) ∧
    ((goAtoi payload).2 = false →
      (goAtoi payload).1 = 0 ∨ (goAtoi payload).1 = int64Max ∨
      (goAtoi payload).1 = int64Min) ∧
    processMessages st ((topic, payload) :: rest) =
      processMessages (messageHandler st topic payload) rest := by
  refine ⟨fun hE hP hL => ?_, fun hE hP hL => ?_, fun hE hP hL => ?_, fun hE hP hL => ?_,
    fun hE hP hL => ?_, fun hE hP hL => ?_, fun hE hP hL => ?_, fun hE hP hL => ?_,
    fun hE hP hL => ?_, goParseFloat_fail payload, goAtoi_fail payload, rfl⟩
  · have hd := dispatch_healthCheck topic payload (loadOrStore st (topicDevice topic)).1 hE
    rw [goParseBool_fail payload hP] at hd
    exact messageHandler_eq_of_dispatch st topic payload _ hL hd
  · have hd := dispatch_sprinklerPosition topic payload (loadOrStore st (topicDevice topic)).1 hE
    exact messageHandler_eq_of_dispatch st topic payload _ hL hd
  · have hd := dispatch_valvePosition topic payload (loadOrStore st (topicDevice topic)).1 hE
    exact messageHandler_eq_of_dispatch st topic payload _ hL hd
  · have hd := dispatch_sprinklerCalibComplete topic payload
      (loadOrStore st (topicDevice topic)).1 hE
    rw [goParseBool_fail payload hP] at hd
    exact messageHandler_eq_of_dispatch st topic payload _ hL hd
  · have hd := dispatch_valveCalibComplete topic payload
      (loadOrStore st (topicDevice topic)).1 hE
    rw [goParseBool_fail payload hP] at hd
    exact messageHandler_eq_of_dispatch st topic payload _ hL hd
  · have hd := dispatch_valveIsAtTarget topic payload (loadOrStore st (topicDevice topic)).1 hE
    rw [goParseBool_fail payload hP] at hd
    exact messageHandler_eq_of_dispatch st topic payload _ hL hd
  · have hd := dispatch_taskCurrentIndex topic payload (loadOrStore st (topicDevice topic)).1 hE
    exact messageHandler_eq_of_dispatch st topic payload _ hL hd
  · have hd := dispatch_taskCurrentCount topic payload (loadOrStore st (topicDevice topic)).1 hE
    exact messageHandler_eq_of_dispatch st topic payload _ hL hd
  · have hd := dispatch_taskAllComplete topic payload (loadOrStore st (topicDevice topic)).1 hE
    rw [goParseBool_fail payload hP] at hd
    exact messageHandler_eq_of_dispatch st topic payload _ hL hd

/-- Witness for the amended C5: a failed boolean parse on the
health-check topic overwrites the flag (previously true) with false and
leaves the other fields unchanged; the next message is still processed. -/
theorem messageHandler_parse_failure_amended_witness :
    (endsWithStr "d1/status/health_check" "/status/health_check" = true ∧
      (goParseBool "garbage").2 = false ∧
      3 ≤ (splitParts '/' "d1/status/health_check").length) ∧
    messageHandler [("d1", { emptyStatus "d1" with healthCheck := true })]
        "d1/status/health_check" "garbage" =
      putStore
        (loadOrStore [("d1", { emptyStatus "d1" with healthCheck := true })]
          (topicDevice "d1/status/health_check")).2
        (topicDevice "d1/status/health_check")
        { (loadOrStore [("d1", { emptyStatus "d1" with healthCheck := true })]
            (topicDevice "d1/status/health_check")).1 with healthCheck := false } :=
  ⟨⟨by decide, by decide, by decide⟩,
   (messageHandler_parse_failure_amended
      [("d1", { emptyStatus "d1" with healthCheck := true })]
      "d1/status/health_check" "garbage" []).1 (by decide) (by decide) (by decide)⟩

/-! ## Facts about waitForFlag and the event counters -/

theorem takeStatus_mem (dev : String) (stream : List DeviceStatus) :
    ∀ x ∈ (takeStatus dev stream).2, x ∈ stream := by
  cases stream <;> simp [takeStatus]
  intro x hx
  exact Or.inr hx

theorem waitForFlag_events_poll (dev : String) (check : DeviceStatus → Bool)
    (ticks : Nat) (stream : List DeviceStatus) :
    ∀ e ∈ (waitForFlag dev ticks check stream).2.1, e = Event.poll dev := by
  induction ticks generalizing stream with
  | zero =>
    intro e he
    simp [waitForFlag] at he
  | succ n ih =>
    intro e he
    simp only [waitForFlag] at he
    by_cases h : check (takeStatus dev stream).1
    · simp [h] at he
      exact he
    · simp [h] at he
      rcases he with he | he
      · exact he
      · exact ih _ e he

theorem waitForFlag_countP (p : Event → Bool) (dev : String) (check : DeviceStatus → Bool)
    (ticks : Nat) (stream : List DeviceStatus) (hp : p (Event.poll dev) = false) :
    ((waitForFlag dev ticks check stream).2.1).countP p = 0 := by
  apply List.countP_eq_zero.mpr
  intro e he
  rw [waitForFlag_events_poll dev check ticks stream e he, hp]
  simp

theorem waitForFlag_filter_commands (dev : String) (check : DeviceStatus → Bool)
    (ticks : Nat) (stream : List DeviceStatus) :
    ((waitForFlag dev ticks check stream).2.1).filter isCommandEv = [] := by
  apply List.filter_eq_nil_iff.mpr
  intro e he
  rw [waitForFlag_events_poll dev check ticks stream e he]
  simp [isCommandEv]

theorem waitForFlag_fail (dev : String) (check : DeviceStatus → Bool)
    (hempty : check (emptyStatus dev) = false) (ticks : Nat) :
    ∀ (stream : List DeviceStatus), (∀ s ∈ stream, check s = false) →
    (waitForFlag dev ticks check stream).1 = false := by
  induction ticks with
  | zero =>
    intro stream _
    simp [waitForFlag]
  | succ n ih =>
    intro stream h
    have h1 : check (takeStatus dev stream).1 = false := by
      cases stream with
      | nil => simpa [takeStatus] using hempty
      | cons s tail => simpa [takeStatus] using h s (by simp)
    simp only [waitForFlag, h1]
    simp only [Bool.false_eq_true, if_false]
    exact ih (takeStatus dev stream).2 (fun s hs => h s (takeStatus_mem dev stream s hs))

theorem waitForFlag_poll_mem (dev : String) (check : DeviceStatus → Bool)
    (ticks : Nat) (stream : List DeviceStatus) (ht : 0 < ticks) :
    Event.poll dev ∈ (waitForFlag dev ticks check stream).2.1 := by
  cases ticks with
  | zero => omega
  | succ n =>
    simp only [waitForFlag]
    by_cases h : check (takeStatus dev stream).1 <;> simp [h]

theorem runCalibrationValve_mem_mono (dev : DeviceConfig) (evs : List Event)
    (stream : List DeviceStatus) {e : Event} (he : e ∈ evs) :
    e ∈ (runCalibrationValve dev evs stream).events := by
  unfold runCalibrationValve
  by_cases hv : (takeStatus dev.id stream).1.valveCalibComplete
  · simp [hv, List.mem_append, he]
  · by_cases hw : (waitForFlag dev.id calibTicks (fun st => st.valveCalibComplete)
        (takeStatus dev.id stream).2).1 <;>
      simp [hv, hw, List.mem_append, he]

theorem string_append_cancel (s : String) {a b : String} (h : a ≠ b) :
    s ++ a ≠ s ++ b := by
  intro hc
  apply h
  have hd : s.data ++ a.data = s.data ++ b.data := by
    have h1 : (s ++ a).data = s.data ++ a.data := by
      cases s
      cases a
      rfl
    have h2 : (s ++ b).data = s.data ++ b.data := by
      cases s
      cases b
      rfl
    rw [← h1, ← h2, hc]
  have hab : a.data = b.data := List.append_cancel_left hd
  cases a
  cases b
  exact congrArg String.mk (by simpa using hab)

/-! ## Shape lemmas for the valve half of the calibration phase -/

theorem runCalibrationValve_skip (dev : DeviceConfig) (evs : List Event)
    (stream : List DeviceStatus)
    (h : (takeStatus dev.id stream).1.valveCalibComplete = true) :
    runCalibrationValve dev evs stream =
      { events := evs ++ [Event.getStatus dev.id], ok := true,
        historyStatus := none, stream := (takeStatus dev.id stream).2 } := by
  simp [runCalibrationValve, h]

theorem runCalibrationValve_countPubTopic (dev : DeviceConfig) (evs : List Event)
    (stream : List DeviceStatus) (topic : String)
    (hne : dev.id ++ "/cmd/valve/home" ≠ topic) :
    countPubTopic (runCalibrationValve dev evs stream).events topic =
      countPubTopic evs topic := by
  unfold runCalibrationValve
  by_cases hv : (takeStatus dev.id stream).1.valveCalibComplete
  · simp [hv, countPubTopic, List.countP_append, List.countP_cons]
  · have hpolls := waitForFlag_countP
      (fun e => match e with | .publish t _ => t = topic | _ => false)
      dev.id (fun st => st.valveCalibComplete) calibTicks (takeStatus dev.id stream).2
      (by simp)
    by_cases hw : (waitForFlag dev.id calibTicks (fun st => st.valveCalibComplete)
        (takeStatus dev.id stream).2).1 <;>
      simp [hv, hw, countPubTopic, List.countP_append, List.countP_cons, hne] <;>
      simpa [countPubTopic] using hpolls

theorem runCalibrationValve_countPoll_le (dev : DeviceConfig) (evs : List Event)
    (stream : List DeviceStatus) :
    countPoll evs ≤ countPoll (runCalibrationValve dev evs stream).events := by
  unfold runCalibrationValve
  by_cases hv : (takeStatus dev.id stream).1.valveCalibComplete
  · simp [hv, countPoll, List.countP_append, List.countP_cons]
  · by_cases hw : (waitForFlag dev.id calibTicks (fun st => st.valveCalibComplete)
        (takeStatus dev.id stream).2).1 <;>
      simp [hv, hw, countPoll, List.countP_append, List.countP_cons]

theorem runCalibrationValve_timeout (dev : DeviceConfig) (evs : List Event)
    (stream : List DeviceStatus)
    (hvall : ∀ s ∈ stream, s.valveCalibComplete = false) :
    (runCalibrationValve dev evs stream).ok = false ∧
    (runCalibrationValve dev evs stream).historyStatus = some "VALVE_CALIB_TIMEOUT" ∧
    countPubTopic (runCalibrationValve dev evs stream).events
        (dev.id ++ "/cmd/valve/home") =
      countPubTopic evs (dev.id ++ "/cmd/valve/home") + 1 ∧
    (∀ topic, topic ≠ dev.id ++ "/cmd/valve/home" →
      countPubTopic (runCalibrationValve dev evs stream).events topic =
        countPubTopic evs topic) := by
  have hv : (takeStatus dev.id stream).1.valveCalibComplete = false := by
    cases stream with
    | nil => simp [takeStatus, emptyStatus]
    | cons s tail => simpa [takeStatus] using hvall s (by simp)
  have hw : (waitForFlag dev.id calibTicks (fun st => st.valveCalibComplete)
      (takeStatus dev.id stream).2).1 = false :=
    waitForFlag_fail dev.id _ (by simp [emptyStatus]) calibTicks _
      (fun s hs => hvall s (takeStatus_mem dev.id stream s hs))
  refine ⟨?_, ?_, ?_, ?_⟩
  · simp [runCalibrationValve, hv, hw]
  · simp [runCalibrationValve, hv, hw]
  · have hpolls := waitForFlag_countP
      (fun e => match e with
        | .publish t _ => t = dev.id ++ "/cmd/valve/home" | _ => false)
      dev.id (fun st => st.valveCalibComplete) calibTicks (takeStatus dev.id stream).2
      (by simp)
    simp only [runCalibrationValve, hv, hw]
    simp [countPubTopic, List.countP_append, List.countP_cons]
    simpa [countPubTopic] using hpolls
  · intro topic hne
    have hpolls := waitForFlag_countP
      (fun e => match e with | .publish t _ => t = topic | _ => false)
      dev.id (fun st => st.valveCalibComplete) calibTicks (takeStatus dev.id stream).2
      (by simp)
    simp only [runCalibrationValve, hv, hw]
    simp [countPubTopic, List.countP_append, List.countP_cons, Ne.symm hne]
    simpa [countPubTopic] using hpolls

/-! ## Claim C2 -/

/-- Claim C2: for each axis (sprinkler, valve) independently, a status
snapshot already reporting the axis calibrated makes the calibration
step for that axis issue zero publishes and zero polls (both axes
calibrated: the whole phase is two status reads, nothing else);
otherwise the axis's home command is published (exactly once) and
polling begins, and when no snapshot ever reports the flag the
calibration deadline elapses, the axis's calibration-timeout terminal
status is recorded and the job aborts — after a sprinkler-axis timeout
the valve home command is never published. -/
theorem runCalibration_axis_skip (dev : DeviceConfig) (stream : List DeviceStatus) :
    ((takeStatus dev.id stream).1.sprinklerCalibComplete = true →
      (takeStatus dev.id (takeStatus dev.id stream).2).1.valveCalibComplete = true →
      (runCalibration dev stream).events =
        [Event.getStatus dev.id, Event.getStatus dev.id] ∧
      (runCalibration dev stream).ok = true ∧
      countPub (runCalibration dev stream).events = 0 ∧
      countPoll (runCalibration dev stream).events = 0) ∧
    ((takeStatus dev.id stream).1.sprinklerCalibComplete = true →
      countPubTopic (runCalibration dev stream).events
        (dev.id ++ "/cmd/sprinkler/home") = 0) ∧
    ((takeStatus dev.id stream).1.sprinklerCalibComplete = false →
      countPubTopic (runCalibration dev stream).events
        (dev.id ++ "/cmd/sprinkler/home") = 1 ∧
      Event.poll dev.id ∈ (runCalibration dev stream).events) ∧
    ((∀ s ∈ stream, s.sprinklerCalibComplete = false) →
      (runCalibration dev stream).ok = false ∧
      (runCalibration dev stream).historyStatus = some "SPRINKLER_CALIB_TIMEOUT" ∧
      countPubTopic (runCalibration dev stream).events
        (dev.id ++ "/cmd/valve/home") = 0) ∧
    ((takeStatus dev.id stream).1.sprinklerCalibComplete = true →
      (∀ s ∈ stream, s.valveCalibComplete = false) →
      (runCalibration dev stream).ok = false ∧
      (runCalibration dev stream).historyStatus = some "VALVE_CALIB_TIMEOUT" ∧
      countPubTopic (runCalibration dev stream).events
        (dev.id ++ "/cmd/valve/home") = 1 ∧
      countPubTopic (runCalibration dev stream).events
        (dev.id ++ "/cmd/sprinkler/home") = 0) := by
  have hvne : dev.id ++ "/cmd/valve/home" ≠ dev.id ++ "/cmd/sprinkler/home" :=
    string_append_cancel dev.id (by decide)
  have hsne : dev.id ++ "/cmd/sprinkler/home" ≠ dev.id ++ "/cmd/valve/home" :=
    string_append_cancel dev.id (by decide)
  refine ⟨fun h1 h2 => ?_, fun h1 => ?_, fun h1 => ?_, fun hall => ?_, fun h1 hvall => ?_⟩
  · have heq : runCalibration dev stream =
        runCalibrationValve dev [Event.getStatus dev.id] (takeStatus dev.id stream).2 := by
      simp [runCalibration, h1]
    rw [heq, runCalibrationValve_skip dev _ _ h2]
    refine ⟨rfl, rfl, ?_, ?_⟩ <;> simp [countPub, countPoll, List.countP_cons]
  · have heq : runCalibration dev stream =
        runCalibrationValve dev [Event.getStatus dev.id] (takeStatus dev.id stream).2 := by
      simp [runCalibration, h1]
    rw [heq, runCalibrationValve_countPubTopic dev _ _ _ hvne]
    simp [countPubTopic, List.countP_cons]
  · by_cases hw : (waitForFlag dev.id calibTicks (fun st => st.sprinklerCalibComplete)
        (takeStatus dev.id stream).2).1
    · have heq : runCalibration dev stream =
          runCalibrationValve dev
            ([Event.getStatus dev.id] ++
              Event.publish (dev.id ++ "/cmd/sprinkler/home") "1" ::
                (waitForFlag dev.id calibTicks (fun st => st.sprinklerCalibComplete)
                  (takeStatus dev.id stream).2).2.1)
            (waitForFlag dev.id calibTicks (fun st => st.sprinklerCalibComplete)
              (takeStatus dev.id stream).2).2.2 := by
        simp [runCalibration, h1, hw]
      have hpolls := waitForFlag_countP
        (fun e => match e with
          | .publish t _ => t = dev.id ++ "/cmd/sprinkler/home" | _ => false)
        dev.id (fun st => st.sprinklerCalibComplete) calibTicks
        (takeStatus dev.id stream).2 (by simp)
      constructor
      · rw [heq, runCalibrationValve_countPubTopic dev _ _ _ hvne]
        simp [countPubTopic, List.countP_append, List.countP_cons]
        simpa [countPubTopic] using hpolls
      · have hm := waitForFlag_poll_mem dev.id
          (fun st => st.sprinklerCalibComplete) calibTicks
          (takeStatus dev.id stream).2 (by simp [calibTicks])
        rw [heq]
        exact runCalibrationValve_mem_mono dev _ _
          (List.mem_append_right _ (List.mem_cons_of_mem _ hm))
    · have heq : runCalibration dev stream =
          { events := [Event.getStatus dev.id] ++
              Event.publish (dev.id ++ "/cmd/sprinkler/home") "1" ::
                (waitForFlag dev.id calibTicks (fun st => st.sprinklerCalibComplete)
                  (takeStatus dev.id stream).2).2.1,
            ok := false, historyStatus := some "SPRINKLER_CALIB_TIMEOUT",
            stream := (waitForFlag dev.id calibTicks
              (fun st => st.sprinklerCalibComplete)
              (takeStatus dev.id stream).2).2.2 } := by
        simp [runCalibration, h1, hw]
      have hpolls := waitForFlag_countP
        (fun e => match e with
          | .publish t _ => t = dev.id ++ "/cmd/sprinkler/home" | _ => false)
        dev.id (fun st => st.sprinklerCalibComplete) calibTicks
        (takeStatus dev.id stream).2 (by simp)
      have hm := waitForFlag_poll_mem dev.id
        (fun st => st.sprinklerCalibComplete) calibTicks
        (takeStatus dev.id stream).2 (by simp [calibTicks])
      rw [heq]
      constructor
      · simp [countPubTopic, List.countP_append, List.countP_cons]
        simpa [countPubTopic] using hpolls
      · exact List.mem_append_right _ (List.mem_cons_of_mem _ hm)
  · have h1 : (takeStatus dev.id stream).1.sprinklerCalibComplete = false := by
      cases stream with
      | nil => simp [takeStatus, emptyStatus]
      | cons s tail => simpa [takeStatus] using hall s (by simp)
    have hw : (waitForFlag dev.id calibTicks (fun st => st.sprinklerCalibComplete)
        (takeStatus dev.id stream).2).1 = false :=
      waitForFlag_fail dev.id _ (by simp [emptyStatus]) calibTicks _
        (fun s hs => hall s (takeStatus_mem dev.id stream s hs))
    have hpolls := waitForFlag_countP
      (fun e => match e with
        | .publish t _ => t = dev.id ++ "/cmd/valve/home" | _ => false)
      dev.id (fun st => st.sprinklerCalibComplete) calibTicks
      (takeStatus dev.id stream).2 (by simp)
    refine ⟨?_, ?_, ?_⟩
    · simp [runCalibration, h1, hw]
    · simp [runCalibration, h1, hw]
    · simp only [runCalibration, h1, hw]
      simp [countPubTopic, List.countP_append, List.countP_cons, hsne]
      simpa [countPubTopic] using hpolls
  · have heq : runCalibration dev stream =
        runCalibrationValve dev [Event.getStatus dev.id] (takeStatus dev.id stream).2 := by
      simp [runCalibration, h1]
    obtain ⟨ho, hs, hc1, hco⟩ := runCalibrationValve_timeout dev
      [Event.getStatus dev.id] (takeStatus dev.id stream).2
      (fun s hs => hvall s (takeStatus_mem dev.id stream s hs))
    refine ⟨heq ▸ ho, heq ▸ hs, ?_, ?_⟩
    · rw [heq, hc1]
      simp [countPubTopic, List.countP_cons]
    · rw [heq, hco (dev.id ++ "/cmd/sprinkler/home") hsne]
      simp [countPubTopic, List.countP_cons]

/-- Witness for C2 at concrete inputs: with both axes already reported
calibrated the whole phase is two status reads (zero publishes, zero
polls); with no snapshot ever arriving the sprinkler wait exhausts its
deadline, records SPRINKLER_CALIB_TIMEOUT and never publishes the valve
home command. -/
theorem runCalibration_axis_skip_witness :
    ((takeStatus sprinklerFixture.id
        [calibratedStatus, calibratedStatus]).1.sprinklerCalibComplete = true ∧
      (takeStatus sprinklerFixture.id
        (takeStatus sprinklerFixture.id
          [calibratedStatus, calibratedStatus]).2).1.valveCalibComplete = true ∧
      ((runCalibration sprinklerFixture [calibratedStatus, calibratedStatus]).events =
          [Event.getStatus sprinklerFixture.id, Event.getStatus sprinklerFixture.id] ∧
        (runCalibration sprinklerFixture [calibratedStatus, calibratedStatus]).ok = true ∧
        countPub (runCalibration sprinklerFixture
          [calibratedStatus, calibratedStatus]).events = 0 ∧
        countPoll (runCalibration sprinklerFixture
          [calibratedStatus, calibratedStatus]).events = 0)) ∧
    ((∀ s ∈ ([] : List DeviceStatus), s.sprinklerCalibComplete = false) ∧
      ((runCalibration sprinklerFixture []).ok = false ∧
        (runCalibration sprinklerFixture []).historyStatus =
          some "SPRINKLER_CALIB_TIMEOUT" ∧
        countPubTopic (runCalibration sprinklerFixture []).events
          (sprinklerFixture.id ++ "/cmd/valve/home") = 0)) :=
  ⟨⟨by decide, by decide,
    (runCalibration_axis_skip sprinklerFixture
      [calibratedStatus, calibratedStatus]).1 (by decide) (by decide)⟩,
   ⟨by simp,
    (runCalibration_axis_skip sprinklerFixture []).2.2.2.1 (by simp)⟩⟩

/-! ## Claim C1 -/

/-- Structural specification of the task loop, by induction over the
remaining task IDs. -/
theorem runTasksAux_spec (dev : DeviceConfig) (files : TaskFiles) (ids : List String)
    (stream : List DeviceStatus) :
    (runTasksAux dev files ids stream).tasksBegun =
      ids.take (runTasksAux dev files ids stream).tasksBegun.length ∧
    countReset (runTasksAux dev files ids stream).events =
      (runTasksAux dev files ids stream).tasksBegun.length ∧
    ((runTasksAux dev files ids stream).ok = true →
      (runTasksAux dev files ids stream).tasksBegun = ids ∧
      (runTasksAux dev files ids stream).historyStatus = none ∧
      countPubTopic (runTasksAux dev files ids stream).events
        (dev.id ++ "/cmd/task/set") = ids.length ∧
      (runTasksAux dev files ids stream).events.filter isCommandEv =
        ids.flatMap (fun tid =>
          match lookupFile files (taskFilePath dev.id tid) with
          | some td => [Event.reset dev.id,
              Event.publish (dev.id ++ "/cmd/task/set") td.payload, Event.sleepSec 3]
          | none => [])) ∧
    ((runTasksAux dev files ids stream).ok = false →
      (runTasksAux dev files ids stream).historyStatus = some "TASK_ERROR" ∨
      (runTasksAux dev files ids stream).historyStatus = some "TASK_TIMEOUT") := by
  induction ids generalizing stream with
  | nil =>
    simp [runTasksAux, countReset, countPubTopic]
  | cons tid rest ih =>
    cases hf : lookupFile files (taskFilePath dev.id tid) with
    | none =>
      refine ⟨?_, ?_, ?_, ?_⟩
      · simp [runTasksAux, hf]
      · simp [runTasksAux, hf, countReset, List.countP_cons]
      · intro hok
        simp [runTasksAux, hf] at hok
      · intro _
        simp [runTasksAux, hf]
    | some td =>
      by_cases hw : (waitForFlag dev.id (ticksOfMinutes td.timeoutMinutes)
          (fun st => st.taskAllComplete) stream).1
      · obtain ⟨ih1, ih2, ih3, ih4⟩ := ih
          (waitForFlag dev.id (ticksOfMinutes td.timeoutMinutes)
            (fun st => st.taskAllComplete) stream).2.2
        have hresetpolls := waitForFlag_countP
          (fun e => match e with | .reset _ => true | _ => false)
          dev.id (fun st => st.taskAllComplete) (ticksOfMinutes td.timeoutMinutes)
          stream (by simp)
        have hpubpolls := waitForFlag_countP
          (fun e => match e with
            | .publish t _ => t = dev.id ++ "/cmd/task/set"
            | _ => false)
          dev.id (fun st => st.taskAllComplete) (ticksOfMinutes td.timeoutMinutes)
          stream (by simp)
        have hfiltpolls := waitForFlag_filter_commands dev.id
          (fun st => st.taskAllComplete) (ticksOfMinutes td.timeoutMinutes) stream
        refine ⟨?_, ?_, ?_, ?_⟩
        · simp only [runTasksAux, hf, hw, if_true, List.length_cons]
          rw [List.take_succ_cons]
          exact congrArg (tid :: ·) ih1
        · simp only [runTasksAux, hf, hw, if_true]
          simp only [countReset, List.countP_cons, List.countP_append] at ih2 ⊢
          simp only [countReset] at hresetpolls
          simp [hresetpolls, ih2]
        · intro hok
          simp only [runTasksAux, hf, hw, if_true] at hok ⊢
          obtain ⟨h1, h2, h3, h4⟩ := ih3 hok
          refine ⟨by rw [h1], h2, ?_, ?_⟩
          · simp only [countPubTopic, List.countP_cons, List.countP_append] at h3 ⊢
            simp only [countPubTopic] at hpubpolls
            simp [hpubpolls, h3]
          · simp only [List.filter_cons, List.filter_append, isCommandEv,
              hfiltpolls, h4]
            simp [List.flatMap_cons, hf]
        · intro hnok
          simp only [runTasksAux, hf, hw, if_true] at hnok ⊢
          exact ih4 hnok
      · refine ⟨?_, ?_, ?_, ?_⟩
        · simp [runTasksAux, hf, hw]
        · have hresetpolls := waitForFlag_countP
            (fun e => match e with | .reset _ => true | _ => false)
            dev.id (fun st => st.taskAllComplete) (ticksOfMinutes td.timeoutMinutes)
            stream (by simp)
          simp only [runTasksAux, hf, hw, if_false]
          simp only [countReset, List.countP_cons] at hresetpolls ⊢
          simp [hresetpolls]
        · intro hok
          simp [runTasksAux, hf, hw] at hok
        · intro _
          simp [runTasksAux, hf, hw]

/-- Failure-cause inversion for the task loop: a failed run has begun at
least one task; TASK_ERROR means the last begun task's definition failed
to load, TASK_TIMEOUT means it loaded and the wait expired. -/
theorem runTasksAux_failure_cause (dev : DeviceConfig) (files : TaskFiles)
    (ids : List String) (stream : List DeviceStatus) :
    ((runTasksAux dev files ids stream).ok = false →
      (runTasksAux dev files ids stream).tasksBegun ≠ []) ∧
    ((runTasksAux dev files ids stream).ok = false →
      (runTasksAux dev files ids stream).historyStatus = some "TASK_ERROR" →
      ∀ tl, (runTasksAux dev files ids stream).tasksBegun.getLast? = some tl →
        lookupFile files (taskFilePath dev.id tl) = none) ∧
    ((runTasksAux dev files ids stream).ok = false →
      (runTasksAux dev files ids stream).historyStatus = some "TASK_TIMEOUT" →
      ∀ tl, (runTasksAux dev files ids stream).tasksBegun.getLast? = some tl →
        ∃ td, lookupFile files (taskFilePath dev.id tl) = some td) := by
  induction ids generalizing stream with
  | nil =>
    refine ⟨fun h => ?_, fun h => ?_, fun h => ?_⟩ <;> simp [runTasksAux] at h
  | cons tid rest ih =>
    cases hf : lookupFile files (taskFilePath dev.id tid) with
    | none =>
      refine ⟨fun _ => ?_, fun _ _ tl htl => ?_, fun _ hst => ?_⟩
      · simp [runTasksAux, hf]
      · simp [runTasksAux, hf] at htl
        exact htl ▸ hf
      · simp [runTasksAux, hf] at hst
    | some td =>
      by_cases hw : (waitForFlag dev.id (ticksOfMinutes td.timeoutMinutes)
          (fun st => st.taskAllComplete) stream).1
      · obtain ⟨ih1, ih2, ih3⟩ := ih
          (waitForFlag dev.id (ticksOfMinutes td.timeoutMinutes)
            (fun st => st.taskAllComplete) stream).2.2
        refine ⟨fun _ => ?_, fun hok herr tl htl => ?_, fun hok herr tl htl => ?_⟩
        · simp [runTasksAux, hf, hw]
        · simp only [runTasksAux, hf, hw, if_true] at hok herr htl
          obtain ⟨b, m, hbm⟩ := List.exists_cons_of_ne_nil (ih1 hok)
          rw [hbm, List.getLast?_cons_cons] at htl
          exact ih2 hok herr tl (hbm ▸ htl)
        · simp only [runTasksAux, hf, hw, if_true] at hok herr htl
          obtain ⟨b, m, hbm⟩ := List.exists_cons_of_ne_nil (ih1 hok)
          rw [hbm, List.getLast?_cons_cons] at htl
          exact ih3 hok herr tl (hbm ▸ htl)
      · refine ⟨fun _ => ?_, fun _ hst => ?_, fun _ _ tl htl => ?_⟩
        · simp [runTasksAux, hf, hw]
        · simp [runTasksAux, hf, hw] at hst
        · simp [runTasksAux, hf, hw] at htl
          exact ⟨td, htl ▸ hf⟩

/-- Claim C1: the engine iterates the configured task IDs in order —
the begun tasks always form an initial run of the configured list, one
reset per begun task; when every task succeeds the loop runs them all
(no terminal failure status, one task-set publish per task, and the
command events are exactly reset / publish payload / settle-sleep per
task in order); a definition-load failure or a poll timeout ends the
run with terminal status TASK_ERROR resp. TASK_TIMEOUT, aborting all
remaining tasks (no higher-index task is ever begun).  With 3 task IDs
that all succeed this yields exactly 3 resets and 3 task publishes. -/
theorem runDeviceTasks_ordered_execution (dev : DeviceConfig) (files : TaskFiles)
    (stream : List DeviceStatus) :
    (runDeviceTasks dev files stream).tasksBegun =
      dev.taskIDs.take (runDeviceTasks dev files stream).tasksBegun.length ∧
    countReset (runDeviceTasks dev files stream).events =
      (runDeviceTasks dev files stream).tasksBegun.length ∧
    ((runDeviceTasks dev files stream).ok = true →
      (runDeviceTasks dev files stream).tasksBegun = dev.taskIDs ∧
      (runDeviceTasks dev files stream).historyStatus = none ∧
      countPubTopic (runDeviceTasks dev files stream).events
        (dev.id ++ "/cmd/task/set") = dev.taskIDs.length ∧
      (runDeviceTasks dev files stream).events.filter isCommandEv =
        dev.taskIDs.flatMap (fun tid =>
          match lookupFile files (taskFilePath dev.id tid) with
          | some td => [Event.reset dev.id,
              Event.publish (dev.id ++ "/cmd/task/set") td.payload, Event.sleepSec 3]
          | none => [])) ∧
    ((runDeviceTasks dev files stream).ok = false →
      (runDeviceTasks dev files stream).historyStatus = some "TASK_ERROR" ∨
      (runDeviceTasks dev files stream).historyStatus = some "TASK_TIMEOUT") ∧
    ((runDeviceTasks dev files stream).ok = false →
      (runDeviceTasks dev files stream).tasksBegun ≠ []) ∧
    ((runDeviceTasks dev files stream).ok = false →
      (runDeviceTasks dev files stream).historyStatus = some "TASK_ERROR" →
      ∀ tl, (runDeviceTasks dev files stream).tasksBegun.getLast? = some tl →
        lookupFile files (taskFilePath dev.id tl) = none) ∧
    ((runDeviceTasks dev files stream).ok = false →
      (runDeviceTasks dev files stream).historyStatus = some "TASK_TIMEOUT" →
      ∀ tl, (runDeviceTasks dev files stream).tasksBegun.getLast? = some tl →
        ∃ td, lookupFile files (taskFilePath dev.id tl) = some td) := by
  obtain ⟨h1, h2, h3, h4⟩ := runTasksAux_spec dev files dev.taskIDs stream
  obtain ⟨h5, h6, h7⟩ := runTasksAux_failure_cause dev files dev.taskIDs stream
  exact ⟨h1, h2, h3, h4, h5, h6, h7⟩

/-- Witness for C1: the three-task fixture with a stream that reports
all-complete at each poll — the run succeeds with exactly 3 resets and
3 task-set publishes, in the reset/publish/settle order per task. -/
theorem runDeviceTasks_ordered_execution_witness :
    (runDeviceTasks sprinklerFixture filesFixture
      [doneStatus, doneStatus, doneStatus]).ok = true ∧
    countReset (runDeviceTasks sprinklerFixture filesFixture
      [doneStatus, doneStatus, doneStatus]).events = 3 ∧
    ((runDeviceTasks sprinklerFixture filesFixture
        [doneStatus, doneStatus, doneStatus]).tasksBegun = sprinklerFixture.taskIDs ∧
      (runDeviceTasks sprinklerFixture filesFixture
        [doneStatus, doneStatus, doneStatus]).historyStatus = none ∧
      countPubTopic (runDeviceTasks sprinklerFixture filesFixture
          [doneStatus, doneStatus, doneStatus]).events
        (sprinklerFixture.id ++ "/cmd/task/set") = sprinklerFixture.taskIDs.length ∧
      (runDeviceTasks sprinklerFixture filesFixture
          [doneStatus, doneStatus, doneStatus]).events.filter isCommandEv =
        sprinklerFixture.taskIDs.flatMap (fun tid =>
          match lookupFile filesFixture (taskFilePath sprinklerFixture.id tid) with
          | some td => [Event.reset sprinklerFixture.id,
              Event.publish (sprinklerFixture.id ++ "/cmd/task/set") td.payload,
              Event.sleepSec 3]
          | none => [])) :=
  ⟨by decide, by decide,
   (runDeviceTasks_ordered_execution sprinklerFixture filesFixture
     [doneStatus, doneStatus, doneStatus]).2.2.1 (by decide)⟩

end Irrigation
